import Mathlib

/-!
# Verification of osuushi/triangulate (Seidel trapezoidization triangulator)

Shallow embedding of the Go sources into Lean 4.

Modelling conventions, used throughout:

* Go `float64` is modelled by exact fractions (`Q`).  All branch conditions are
  tolerance comparisons (`Equal`, `LessThan`, `GreaterThan`, `<`, `>`) whose
  outcome on the concrete inputs used below is far from the float rounding
  error, so the rational model and the float program take the same branches.
* Go pointers (`*Point`, `*Segment`, `*Trapezoid`, `*QueryNode`) are modelled
  by identities: points and segments are immutable values carrying a numeric
  `id` (pointer equality = id equality); trapezoids and query nodes are
  mutable and live in an explicit store (`St`), addressed by index.
* Go panics are modelled by `Except PanicVal`.  `PanicVal` distinguishes the
  three kinds of panic payload that occur in the library, because the public
  trampoline treats them differently (see `HandleTriangulatePanicRecover`):
  - `fatal`: `fatalf` panics with `errors.Errorf(...)`, a value implementing
    the `error` interface;
  - `runtimeErr`: runtime errors (nil dereference, index out of range, failed
    interface type assertion).  These also implement `error`;
  - `str`: `panic("literal string")`.  A Go `string` does not implement
    `error`.
  In Go, `type TriangulateError error` declares an interface type with the
  same method set as `error`, so the trampoline's type assertion
  `r.(TriangulateError)` succeeds exactly for payloads implementing `error`:
  it catches `fatal` and `runtimeErr` payloads and re-panics `str` payloads.
-/

namespace Triangulate

/-! ### Exact fractions

`float64` is modelled by exact fractions.  Mathlib's `ℚ` normalizes through
`Nat.gcd`, which the kernel cannot reduce (well-founded recursion), so the
concrete program runs below could not be checked by `decide`.  `Q` is an
unnormalized fraction with a positive denominator; all operations are
kernel-reducible.  Value equality and order are by cross-multiplication. -/

structure Q where
  num : Int
  den : Int
deriving DecidableEq, Repr

instance (n : Nat) : OfNat Q n := ⟨⟨n, 1⟩⟩

instance : Add Q := ⟨fun a b => ⟨a.num * b.den + b.num * a.den, a.den * b.den⟩⟩
instance : Sub Q := ⟨fun a b => ⟨a.num * b.den - b.num * a.den, a.den * b.den⟩⟩
instance : Mul Q := ⟨fun a b => ⟨a.num * b.num, a.den * b.den⟩⟩
instance : Neg Q := ⟨fun a => ⟨-a.num, a.den⟩⟩

/-- Reciprocal.  Go float division by zero yields ±Inf/NaN; it never occurs
in the library's guarded divisions nor in the runs below, and is mapped to 0. -/
def Q.inv (a : Q) : Q :=
  if a.num > 0 then ⟨a.den, a.num⟩
  else if a.num < 0 then ⟨-a.den, -a.num⟩
  else ⟨0, 1⟩

instance : Div Q := ⟨fun a b => a * b.inv⟩

/-- Strict value order (`<` on float64). -/
def Q.blt (a b : Q) : Bool := a.num * b.den < b.num * a.den

/-- Value order (`≤`). -/
def Q.ble (a b : Q) : Bool := a.num * b.den ≤ b.num * a.den

/-- Value equality (`==` on float64). -/
def Q.beq (a b : Q) : Bool := a.num * b.den == b.num * a.den

def Q.abs (a : Q) : Q := ⟨|a.num|, a.den⟩

def Q.minQ (a b : Q) : Q := if Q.ble a b then a else b

def Q.maxQ (a b : Q) : Q := if Q.ble a b then b else a

/-- Kernel-reducible gcd (structural recursion on fuel; 128 steps cover all
naturals below `2^128`, far beyond the sizes arising here). -/
def gcdAux : Nat → Nat → Nat → Nat
  | 0, _, n => n
  | _ + 1, 0, n => n
  | fuel + 1, m, n => gcdAux fuel (n % m) m

def natGcd (m n : Nat) : Nat := gcdAux 128 m n

/-- Kernel-reducible integer square root by Newton iteration on fuel. -/
def isqrtAux : Nat → Nat → Nat → Nat
  | 0, _, g => g
  | fuel + 1, n, g =>
    let g2 := (g + n / g) / 2
    if g2 < g then isqrtAux fuel n g2 else g

def natSqrt (n : Nat) : Nat := if n ≤ 1 then n else isqrtAux 300 n n

/-- The payload of a Go panic, classified by how the public trampoline's
`r.(TriangulateError)` type assertion treats it. -/
inductive PanicVal where
  | fatal (msg : String)
  | runtimeErr (msg : String)
  | str (msg : String)
deriving DecidableEq, Repr

/-- `fatalf` from the internal package: panic with a `TriangulateError`
(`errors.Errorf`), i.e. a payload implementing `error`. -/
def fatalf (msg : String) : PanicVal := .fatal msg

instance {ε α : Type} [DecidableEq ε] [DecidableEq α] : DecidableEq (Except ε α) :=
  fun a b =>
    match a, b with
    | .ok x, .ok y =>
      if h : x = y then .isTrue (by rw [h]) else .isFalse (by intro hh; cases hh; exact h rfl)
    | .error x, .error y =>
      if h : x = y then .isTrue (by rw [h]) else .isFalse (by intro hh; cases hh; exact h rfl)
    | .ok _, .error _ => .isFalse (by intro hh; cases hh)
    | .error _, .ok _ => .isFalse (by intro hh; cases hh)

/-- A point with identity semantics: two occurrences are the same vertex iff
their `id`s agree (Go compares `*Point` pointers).  Coordinates never mutate. -/
structure Point where
  id : Nat
  X : Q
  Y : Q
deriving DecidableEq, Repr

/-- Go pointer equality on points. -/
def ptrEq (p q : Point) : Bool := p.id == q.id

/-- A segment: ordered pair of point handles, itself carrying an identity
(Go compares `*Segment` pointers in `CanMergeWith` and X-node keys). -/
structure Segment where
  id : Nat
  Start : Point
  End : Point
deriving DecidableEq, Repr

/-- Go pointer equality on segments. -/
def segPtrEq (s t : Segment) : Bool := s.id == t.id

structure Triangle where
  A : Point
  B : Point
  C : Point
deriving DecidableEq, Repr

structure Polygon where
  Points : List Point
deriving Repr

/-- `const Epsilon = 1e-6` -/
def Epsilon : Q := 1 / 1000000

/-- `Equal(a, b) ⇔ |a − b| < Epsilon` -/
def Equal (a b : Q) : Bool := ((a - b).abs).blt Epsilon

/-- `GreaterThan(a, b) ⇔ a − b > Epsilon` -/
def GreaterThan (a b : Q) : Bool := Epsilon.blt (a - b)

/-- `LessThan(a, b) ⇔ b − a > Epsilon` -/
def LessThan (a b : Q) : Bool := Epsilon.blt (b - a)

/-- `Point.Below`: lexicographic order breaking y ties by x. -/
def Point.Below (p q : Point) : Bool :=
  if Equal p.Y q.Y then p.X.blt q.X else p.Y.blt q.Y

/-- `Point.Above` is the negation of `Below`. -/
def Point.Above (p q : Point) : Bool := !(p.Below q)

/-- `CircularIndex(i, n) = (i%n + n) % n` on Go ints; indices in the monotone
triangulator are sums/differences of nonnegative counters, modelled on ℤ. -/
def CircularIndex (i : Int) (n : Nat) : Nat :=
  (((i % (n : Int)) + (n : Int)) % (n : Int)).toNat

/-- `Triangle.SignedArea` (2D cross products, halved). -/
def Triangle.SignedArea (t : Triangle) : Q :=
  ((t.A.X * t.B.Y - t.B.X * t.A.Y) +
   (t.B.X * t.C.Y - t.C.X * t.B.Y) +
   (t.C.X * t.A.Y - t.A.X * t.C.Y)) / 2

/-- `Polygon.SignedArea` by the shoelace formula. -/
def Polygon.SignedArea (poly : Polygon) : Q :=
  let n := poly.Points.length
  (List.range n).foldl
    (fun area i =>
      let p := poly.Points.getD i ⟨0, 0, 0⟩
      let q := poly.Points.getD ((i + 1) % n) ⟨0, 0, 0⟩
      area + (p.X * q.Y - q.X * p.Y)) 0 / 2

def Triangle.Area (t : Triangle) : Q := t.SignedArea.abs

/-- `IsCCW`: signed area strictly positive. -/
def IsCCW (t : Triangle) : Bool := Q.blt 0 t.SignedArea

/-- `IsCW`: signed area strictly negative. -/
def IsCW (t : Triangle) : Bool := Q.blt t.SignedArea 0

/-- `Segment.PointsDown`: the end point is lexicographically below the start. -/
def Segment.PointsDown (s : Segment) : Bool := s.End.Below s.Start

/-- `Segment.Top`: the lexicographically higher endpoint. -/
def Segment.TopPt (s : Segment) : Point := if s.PointsDown then s.Start else s.End

/-- `Segment.Bottom`: the lexicographically lower endpoint. -/
def Segment.BottomPt (s : Segment) : Point := if s.PointsDown then s.End else s.Start

def Segment.IsHorizontal (s : Segment) : Bool := Equal s.Start.Y s.End.Y

def Segment.IsVertical (s : Segment) : Bool := Equal s.Start.X s.End.X

/-- `Segment.SolveForX(y)`: panics (plain string payload) on a horizontal
segment; on a vertical segment returns `Start.X`; otherwise solves the
infinite line `y = m x + b` for x. -/
def Segment.SolveForX (s : Segment) (y : Q) : Except PanicVal Q :=
  if s.IsHorizontal then
    .error (.str "Cannot solve for X on a horizontal segment")
  else if s.IsVertical then
    .ok s.Start.X
  else
    let m := (s.End.Y - s.Start.Y) / (s.End.X - s.Start.X)
    let b := s.Start.Y - m * s.Start.X
    .ok ((y - b) / m)

/-- `Segment.IsLeftOf(p)` on a possibly-nil segment (nil returns true).
Branch order follows the source: horizontal case first, then the
endpoint-identity check, then the x-intercept comparison. -/
def IsLeftOf (s? : Option Segment) (p : Point) : Except PanicVal Bool :=
  match s? with
  | none => .ok true
  | some s =>
    if Equal s.Start.Y s.End.Y then
      .ok (LessThan s.BottomPt.X p.X)
    else if ptrEq s.Start p || ptrEq s.End p then
      .ok false
    else
      match s.SolveForX p.Y with
      | .error e => .error e
      | .ok x => .ok (LessThan x p.X)

/-- `Segment.IsRightOf(p)`; note the horizontal case is *not* the mirror of
`IsLeftOf`: it tests `Start.X > p.X > End.X` under strict tolerance. -/
def IsRightOf (s? : Option Segment) (p : Point) : Except PanicVal Bool :=
  match s? with
  | none => .ok true
  | some s =>
    if Equal s.Start.Y s.End.Y then
      .ok (GreaterThan s.Start.X p.X && GreaterThan p.X s.End.X)
    else if ptrEq s.Start p || ptrEq s.End p then
      .ok false
    else
      match s.SolveForX p.Y with
      | .error e => .error e
      | .ok x => .ok (GreaterThan x p.X)

/-! ## Monotone-polygon triangulation (internal/monotone.go) -/

/-- `appendTriangle`: assert the triangle is not clockwise, else raise the
fatal signal (`fatalf("triangle is clockwise: %v", tri)`). -/
def appendTriangle (triangles : List Triangle) (tri : Triangle) :
    Except PanicVal (List Triangle) :=
  if IsCW tri then .error (fatalf "triangle is clockwise")
  else .ok (triangles ++ [tri])

/-- The merge-sort loop of `TriangulateMonotone`: walk both chains outward
from the top point, emitting the lexicographically higher next point each
step, recording left-chain membership, until the two cursors meet at the
bottom point (pointer equality).  The loop needs at most `n - 2` iterations:
`leftOffset + rightOffset` starts at 2 and grows by one per step, and when it
reaches `n` the two cursors index the same array element, so the pointer
equality test fires at the latest then.  `fuel = n` therefore never runs out;
exhaustion is mapped to a runtime-error payload. -/
def mergeChains (pts : List Point) (n : Nat) (topIdx : Nat) :
    Nat → Int → Int → List Point → List Nat →
    Except PanicVal (List Point × List Nat × Point)
  | 0, _, _, _, _ => .error (.runtimeErr "mergeChains: out of fuel")
  | fuel + 1, leftOffset, rightOffset, sorted, leftChain =>
    let leftPoint := pts.getD (CircularIndex ((topIdx : Int) + leftOffset) n) ⟨0, 0, 0⟩
    let rightPoint := pts.getD (CircularIndex ((topIdx : Int) - rightOffset) n) ⟨0, 0, 0⟩
    if ptrEq leftPoint rightPoint then
      .ok (sorted, leftChain, leftPoint)
    else if leftPoint.Above rightPoint then
      mergeChains pts n topIdx fuel (leftOffset + 1) rightOffset
        (sorted ++ [leftPoint]) (leftChain ++ [leftPoint.id])
    else
      mergeChains pts n topIdx fuel leftOffset (rightOffset + 1)
        (sorted ++ [rightPoint]) leftChain

/-- The opposite-chain branch: pop the whole stack, emitting a triangle for
each adjacent pair `(a, b)`, oriented by which chain `p` is on.  Every
emission goes through `appendTriangle`. -/
def flushStack (left : Bool) (p : Point) :
    List Point → List Triangle → Except PanicVal (List Triangle)
  | [], tris => .ok tris
  | [_], tris => .ok tris
  | a :: b :: rest, tris =>
    match appendTriangle tris (if left then Triangle.mk p a b else Triangle.mk a p b) with
    | .error e => .error e
    | .ok tris => flushStack left p (b :: rest) tris

/-- The same-chain branch: with `v` already popped, keep popping while the
candidate triangle is strictly CCW, emitting each accepted candidate with a
plain `append` (no CW assertion is needed: acceptance requires `IsCCW`).
Returns the final `v`, the remaining stack, and the triangles. -/
def sameChainLoop (left : Bool) (p : Point) :
    Point → List Point → List Triangle → Point × List Point × List Triangle
  | v, [], tris => (v, [], tris)
  | v, topOfStack :: rest, tris =>
    if IsCCW (if left then Triangle.mk p topOfStack v else Triangle.mk p v topOfStack) then
      sameChainLoop left p topOfStack rest
        (tris ++ [if left then Triangle.mk p topOfStack v else Triangle.mk p v topOfStack])
    else
      (v, topOfStack :: rest, tris)

/-- The main sweep over `sortedPoints[2:]`.  `prev` is the previous sorted
point (`sortedPoints[i-1]`).  `isLeft` of an empty stack's peek models Go's
`leftChain[nil]` lookup, which yields `false`.  Popping an empty stack in the
same-chain branch is unreachable (the stack always holds at least two points
at the top of an iteration); Go would push a nil point and crash later, which
we model as an immediate runtime-error payload. -/
def sweep (isLeft : Point → Bool) :
    List Point → Point → List Point → List Triangle →
    Except PanicVal (List Point × List Triangle)
  | [], _, stack, tris => .ok (stack, tris)
  | p :: rest, prev, stack, tris =>
    if isLeft p != (match stack with
        | [] => false
        | q :: _ => isLeft q) then
      match flushStack (isLeft p) p stack tris with
      | .error e => .error e
      | .ok tris => sweep isLeft rest p [p, prev] tris
    else
      match stack with
      | [] => .error (.runtimeErr "invalid memory address or nil pointer dereference")
      | v :: stackRest =>
        sweep isLeft rest p
          (p :: (sameChainLoop (isLeft p) p v stackRest tris).1 ::
            (sameChainLoop (isLeft p) p v stackRest tris).2.1)
          (sameChainLoop (isLeft p) p v stackRest tris).2.2

/-- The final emission: `l` is the last popped vertex; for each remaining
stack vertex `p` emit a triangle joining the bottom vertex, `p` and `l`,
oriented by `l`'s chain, then advance `l := p`. -/
def finalLoop (isLeft : Point → Bool) (bottomPoint : Point) :
    Point → List Point → List Triangle → Except PanicVal (List Triangle)
  | _, [], tris => .ok tris
  | l, p :: rest, tris =>
    match appendTriangle tris (if isLeft l then Triangle.mk bottomPoint p l
        else Triangle.mk bottomPoint l p) with
    | .error e => .error e
    | .ok tris => finalLoop isLeft bottomPoint p rest tris

/-- `TriangulateMonotone` (internal/monotone.go): triangulate a CCW y-monotone
polygon by the stack-based sweep.  Fewer than 3 points raises the fatal
signal; exactly 3 points is a fast path returning the single triangle
`(P0, P1, P2)` unchanged and unchecked. -/
def TriangulateMonotone (polygon : Polygon) : Except PanicVal (List Triangle) :=
  let pts := polygon.Points
  let n := pts.length
  if n < 3 then
    .error (fatalf ("cannot triangulate degenerate polygon with point count: " ++ toString n))
  else if n == 3 then
    .ok [⟨pts.getD 0 ⟨0, 0, 0⟩, pts.getD 1 ⟨0, 0, 0⟩, pts.getD 2 ⟨0, 0, 0⟩⟩]
  else
    -- Find the top point index (later points win ties because `Above` is the
    -- negation of the strict `Below`).
    let topIdx := (List.range n).foldl
      (fun topIdx i =>
        if (pts.getD i ⟨0, 0, 0⟩).Above (pts.getD topIdx ⟨0, 0, 0⟩) then i else topIdx) 0
    -- `sortedPoints` is the top point consed onto the merge output, so
    -- indexing it at 0 and 1 is matching the merge output against `s1 :: _`.
    match mergeChains pts n topIdx n 1 1 [] [] with
    | .error e => .error e
    | .ok merged =>
      match merged.1 with
      | s1 :: sRest =>
        (match sweep (fun p => merged.2.1.contains p.id) sRest s1
            [s1, pts.getD topIdx ⟨0, 0, 0⟩] [] with
         | .error e => .error e
         | .ok res =>
           match res.1 with
           | [] => .ok res.2
           | l :: stackRest =>
             finalLoop (fun p => merged.2.1.contains p.id) merged.2.2 l stackRest res.2)
      | _ => .error (.runtimeErr "index out of range")

/-! ## Trapezoids, neighbor lists, and the mutable store
(src/triangulate/trapezoid.go, querynode.go, querygraph.go)

Trapezoids and query nodes are mutable in Go; they live in the store `St`,
addressed by index.  Point and segment values are immutable and carried
inline (their `id` is the pointer).  Stateful code is written in explicit
state-passing style: a step produces `Except PanicVal (α × St)`, composed
with `bnd`. -/

/-- `TrapezoidNeighborList`: a `[3]*Trapezoid` array (two stable slots plus
one transient slot used mid-split). -/
structure TrapezoidNeighborList where
  n0 : Option Nat
  n1 : Option Nat
  n2 : Option Nat
deriving DecidableEq, Repr

namespace TrapezoidNeighborList

def empty : TrapezoidNeighborList := ⟨none, none, none⟩

def slots (tl : TrapezoidNeighborList) : List (Option Nat) := [tl.n0, tl.n1, tl.n2]

/-- `Add`: scan slots in order; a slot already holding `t` means done (set
semantics); the first nil slot receives `t`; all slots full and distinct
panics with the plain string "too many neighbors". -/
def Add (tl : TrapezoidNeighborList) (t : Nat) : Except PanicVal TrapezoidNeighborList :=
  if tl.n0 == some t then .ok tl
  else if tl.n0 == none then .ok { tl with n0 := some t }
  else if tl.n1 == some t then .ok tl
  else if tl.n1 == none then .ok { tl with n1 := some t }
  else if tl.n2 == some t then .ok tl
  else if tl.n2 == none then .ok { tl with n2 := some t }
  else .error (.str "too many neighbors")

/-- `Remove`: nil out the first slot holding `t` (no-op when absent). -/
def Remove (tl : TrapezoidNeighborList) (t : Nat) : TrapezoidNeighborList :=
  if tl.n0 == some t then { tl with n0 := none }
  else if tl.n1 == some t then { tl with n1 := none }
  else if tl.n2 == some t then { tl with n2 := none }
  else tl

/-- `ReplaceOrAdd`: substitute `replacement` for the first slot holding
`orig`, else `Add` it. -/
def ReplaceOrAdd (tl : TrapezoidNeighborList) (orig replacement : Nat) :
    Except PanicVal TrapezoidNeighborList :=
  if tl.n0 == some orig then .ok { tl with n0 := some replacement }
  else if tl.n1 == some orig then .ok { tl with n1 := some replacement }
  else if tl.n2 == some orig then .ok { tl with n2 := some replacement }
  else tl.Add replacement

/-- `AnyNeighbor`: the first non-nil slot, if any. -/
def AnyNeighbor (tl : TrapezoidNeighborList) : Option Nat :=
  match tl.n0 with
  | some t => some t
  | none => match tl.n1 with
    | some t => some t
    | none => tl.n2

/-- Number of non-nil slots (the `neighborCount` loop in `AddSegment`). -/
def count (tl : TrapezoidNeighborList) : Nat :=
  (tl.slots.filter Option.isSome).length

end TrapezoidNeighborList

structure Trapezoid where
  Left : Option Segment
  Right : Option Segment
  Top : Option Point
  Bottom : Option Point
  TrapezoidsAbove : TrapezoidNeighborList
  TrapezoidsBelow : TrapezoidNeighborList
  Sink : Option Nat
deriving DecidableEq, Repr

/-- A query node's replaceable payload.  An X-node's Right child is nil
transiently between the left-chain and right-chain rewire passes of
`AddSegment`. -/
inductive QueryNodeInner where
  | sink (trapezoid : Nat) (initialParent : Option Nat)
  | ynode (Key : Point) (Above : Nat) (Below : Nat)
  | xnode (Key : Segment) (childLeft : Nat) (childRight : Option Nat)
deriving DecidableEq, Repr

/-- The mutable heap: trapezoids and query nodes addressed by allocation
index, plus a counter producing fresh segment identities. -/
structure St where
  traps : List Trapezoid
  nodes : List QueryNodeInner
  nextSegId : Nat
deriving DecidableEq, Repr

def St.empty : St := ⟨[], [], 0⟩

/-- One sequencing step: state plus panic propagation. -/
abbrev Res (α : Type) : Type := Except PanicVal (α × St)

def bnd {α β : Type} (m : Res α) (f : α → St → Res β) : Res β :=
  match m with
  | .error e => .error e
  | .ok (a, s) => f a s

/-- Lift a pure panicking computation into a step. -/
def liftP {α : Type} (e : Except PanicVal α) (s : St) : Res α :=
  match e with
  | .error p => .error p
  | .ok a => .ok (a, s)

def resOk {α : Type} (a : α) (s : St) : Res α := .ok (a, s)

def listSet {α : Type} : List α → Nat → α → List α
  | [], _, _ => []
  | _ :: rest, 0, a => a :: rest
  | x :: rest, i + 1, a => x :: listSet rest i a

/-- Ascending insertion sort on ids (kernel-reducible canonical ordering for
the Go map-iteration loops). -/
def insertSorted (x : Nat) : List Nat → List Nat
  | [] => [x]
  | y :: ys => if x ≤ y then x :: y :: ys else y :: insertSorted x ys

def sortNat (l : List Nat) : List Nat := l.foldr insertSorted []

/-- Dummy values stand in for dereferences of invalid ids, which never occur
in the executions below (Go would crash on them). -/
def dummyTrap : Trapezoid := ⟨none, none, none, none, .empty, .empty, none⟩

def St.trap (s : St) (i : Nat) : Trapezoid := s.traps.getD i dummyTrap

def St.node (s : St) (i : Nat) : QueryNodeInner := s.nodes.getD i (.sink 0 none)

def St.setTrap (s : St) (i : Nat) (t : Trapezoid) : St :=
  { s with traps := listSet s.traps i t }

def St.setNode (s : St) (i : Nat) (n : QueryNodeInner) : St :=
  { s with nodes := listSet s.nodes i n }

def St.allocTrap (s : St) (t : Trapezoid) : Nat × St :=
  (s.traps.length, { s with traps := s.traps ++ [t] })

def St.allocNode (s : St) (n : QueryNodeInner) : Nat × St :=
  (s.nodes.length, { s with nodes := s.nodes ++ [n] })

/-- Allocate a `&Segment{a, b}` with a fresh identity. -/
def St.allocSeg (s : St) (a b : Point) : Segment × St :=
  (⟨s.nextSegId, a, b⟩, { s with nextSegId := s.nextSegId + 1 })

/-- Go nil-pointer dereference, as a runtime error (caught by the public
trampoline, since runtime errors implement `error`). -/
def getSome {α : Type} : Option α → Except PanicVal α
  | some a => .ok a
  | none => .error (.runtimeErr "invalid memory address or nil pointer dereference")

/-- Pointer equality on possibly-nil points (`nil == nil` is true). -/
def optPtEq : Option Point → Option Point → Bool
  | none, none => true
  | some p, some q => ptrEq p q
  | _, _ => false

/-- Pointer equality on possibly-nil segments. -/
def optSegEq : Option Segment → Option Segment → Bool
  | none, none => true
  | some s, some t => segPtrEq s t
  | _, _ => false

/-- `Segment.Top()` with Go's nil-receiver guard. -/
def optSegTop : Option Segment → Option Point
  | none => none
  | some s => some s.TopPt

/-- `Segment.Bottom()` with Go's nil-receiver guard. -/
def optSegBottom : Option Segment → Option Point
  | none => none
  | some s => some s.BottomPt

/-! ## Trapezoid geometry predicates (src/triangulate/trapezoid.go) -/

inductive XDirection where
  | Left
  | Right
deriving DecidableEq, Repr

inductive YDirection where
  | Down
  | Up
deriving DecidableEq, Repr

structure Direction where
  X : XDirection
  Y : YDirection
deriving DecidableEq, Repr

/-- An extended x value: `math.Inf(±1)` for an open side, else finite. -/
inductive XVal where
  | ninf
  | fin (q : Q)
  | inf
deriving DecidableEq, Repr

/-- `math.Max` on extended values (no NaNs arise in the program). -/
def XVal.maxV : XVal → XVal → XVal
  | .ninf, b => b
  | a, .ninf => a
  | .inf, _ => .inf
  | _, .inf => .inf
  | .fin a, .fin b => .fin (Q.maxQ a b)

/-- `math.Min` on extended values. -/
def XVal.minV : XVal → XVal → XVal
  | .inf, b => b
  | a, .inf => a
  | .ninf, _ => .ninf
  | _, .ninf => .ninf
  | .fin a, .fin b => .fin (Q.minQ a b)

/-- `(a - b) > Epsilon` under IEEE-754 extended arithmetic: `∞ - ∞` and
`-∞ - -∞` are NaN, and any comparison with NaN is false. -/
def XVal.gtEps : XVal → XVal → Bool
  | .inf, .inf => false
  | .inf, _ => true
  | .ninf, _ => false
  | .fin _, .inf => false
  | .fin _, .ninf => true
  | .fin a, .fin b => Epsilon.blt (a - b)

/-- `Trapezoid.IsInside`: both sides present and the left segment points
lexicographically down. -/
def Trapezoid.IsInside (t : Trapezoid) : Bool :=
  match t.Left, t.Right with
  | some l, some _ => l.PointsDown
  | _, _ => false

def Trapezoid.SegmentForSide (t : Trapezoid) (side : XDirection) : Option Segment :=
  match side with
  | .Left => t.Left
  | .Right => t.Right

/-- `Trapezoid.xValueForDirection`: x extent of a corner.  A nil side is at
±∞; a present side with no boundary point on the requested end panics with a
plain string; a horizontal side contributes the boundary point's own x. -/
def Trapezoid.xValueForDirection (t : Trapezoid) (dir : Direction) :
    Except PanicVal XVal :=
  match t.SegmentForSide dir.X with
  | none => .ok (if dir.X == .Left then .ninf else .inf)
  | some segment =>
    let boundaryPoint? := if dir.Y == .Up then t.Top else t.Bottom
    match boundaryPoint? with
    | none => .error (.str "cannot get x value with no boundary point")
    | some boundaryPoint =>
      if segment.IsHorizontal then .ok (.fin boundaryPoint.X)
      else
        match segment.SolveForX boundaryPoint.Y with
        | .error e => .error e
        | .ok x => .ok (.fin x)

/-- `NonzeroOverlapWithTrapezoidAbove`: the x ranges where the two trapezoids
meet overlap by more than Epsilon. -/
def NonzeroOverlapWithTrapezoidAbove (bottomTrapezoid topTrapezoid : Trapezoid) :
    Except PanicVal Bool :=
  match topTrapezoid.xValueForDirection ⟨.Left, .Down⟩ with
  | .error e => .error e
  | .ok topMinX =>
  match topTrapezoid.xValueForDirection ⟨.Right, .Down⟩ with
  | .error e => .error e
  | .ok topMaxX =>
  match bottomTrapezoid.xValueForDirection ⟨.Left, .Up⟩ with
  | .error e => .error e
  | .ok bottomMinX =>
  match bottomTrapezoid.xValueForDirection ⟨.Right, .Up⟩ with
  | .error e => .error e
  | .ok bottomMaxX =>
    let minX := XVal.maxV topMinX bottomMinX
    let maxX := XVal.minV topMaxX bottomMaxX
    .ok (XVal.gtEps maxX minX)

/-- Temporary points allocated mid-computation (`&Point{x, y}`); their
identity differs from every input point, which use small ids. -/
def tempPt (x y : Q) : Point := ⟨1000000000, x, y⟩

/-- `Trapezoid.BottomIntersectsSegment`: does `segment` cross the bottom edge?
Panics (plain string) when asked about a horizontal segment. -/
def Trapezoid.BottomIntersectsSegment (t : Trapezoid) (segment : Segment) :
    Except PanicVal Bool :=
  match t.Bottom with
  | none => .ok false
  | some bt =>
    if (ptrEq bt segment.Start || ptrEq bt segment.End) &&
       ((match t.Left with
         | some l => optPtEq (some l.BottomPt) t.Bottom
         | none => false) ||
        (match t.Right with
         | some r => optPtEq (some r.BottomPt) t.Bottom
         | none => false)) then
      .ok false
    else if segment.IsHorizontal then
      .error (.str "tried to intersect horizontal segment with bottom")
    else
      match segment.SolveForX bt.Y with
      | .error e => .error e
      | .ok x =>
        let point := tempPt x bt.Y
        match IsLeftOf t.Left point with
        | .error e => .error e
        | .ok a =>
          match IsRightOf t.Right point with
          | .error e => .error e
          | .ok b => .ok (a && b)

/-- `CanMergeWith`: same Left and Right segment pointers. -/
def Trapezoid.CanMergeWith (t other : Trapezoid) : Bool :=
  optSegEq t.Left other.Left && optSegEq t.Right other.Right

/-- `HasPoint`: `p` is one of the up to six points on the trapezoid. -/
def Trapezoid.HasPoint (t : Trapezoid) (p : Point) : Bool :=
  optPtEq t.Top (some p) || optPtEq t.Bottom (some p) ||
  (match t.Left with
   | some l => ptrEq l.Start p || ptrEq l.End p
   | none => false) ||
  (match t.Right with
   | some r => ptrEq r.Start p || ptrEq r.End p
   | none => false)

/-! ## Directional points and point location (querynode.go, util.go) -/

structure DirectionalPoint where
  Point : Point
  DirX : Q
  DirY : Q
deriving Repr

/-- Exact square root for rationals that are squares; `math.Sqrt` is
irrational otherwise, which cannot arise on the concrete inputs of this file:
they are chosen so that every `Vector.Length` taken during execution is a
square of a rational (the fallback 0 is never reached there). -/
def ratSqrt (q : Q) : Q :=
  if Q.ble q 0 then 0
  else
    let n := q.num.toNat
    let d := q.den.toNat
    let g := natGcd n d
    let n := n / g
    let d := d / g
    let sn := natSqrt n
    let sd := natSqrt d
    if sn * sn == n && sd * sd == d then ⟨sn, sd⟩ else 0

/-- `Vector.Length = math.Sqrt(x² + y²)` (see `ratSqrt`). -/
def vectorLength (x y : Q) : Q := ratSqrt (x * x + y * y)

/-- `Point.PointingAt`: directional point toward `other`, with the direction
normalized to unit length. -/
def Point.PointingAt (p other : Point) : DirectionalPoint :=
  let dx := other.X - p.X
  let dy := other.Y - p.Y
  let len := vectorLength dx dy
  ⟨p, dx / len, dy / len⟩

/-- `Point.PointingRight`: direction (1, 0). -/
def Point.PointingRight (p : Point) : DirectionalPoint := ⟨p, 1, 0⟩

/-- `QueryNode.FindPoint` and the inner Y/X dispatch, fueled by the node
count (the query structure is a DAG, so a path never revisits a node).
Point location only reads the store. -/
def nodeFindPointAux (s : St) : Nat → Nat → DirectionalPoint → Except PanicVal Nat
  | 0, _, _ => .error (.runtimeErr "query graph traversal exceeded node count")
  | fuel + 1, nodeId, dp =>
    match s.node nodeId with
    | .sink _ _ => .ok nodeId
    | .ynode key above below =>
      let dirUp : Bool :=
        if key.id == dp.Point.id then
          if Equal dp.DirY 0 then Q.blt 0 dp.DirX
          else Q.blt 0 dp.DirY
        else !(dp.Point.Below key)
      nodeFindPointAux s fuel (if dirUp then above else below) dp
    | .xnode key childLeft childRight =>
      let goRight? : Except PanicVal Bool :=
        if key.Start.id == dp.Point.id || key.End.id == dp.Point.id then
          let nudgedPoint := tempPt (dp.Point.X + dp.DirX) (dp.Point.Y + dp.DirY)
          IsLeftOf (some key) nudgedPoint
        else
          IsLeftOf (some key) dp.Point
      match goRight? with
      | .error e => .error e
      | .ok true =>
        match getSome childRight with
        | .error e => .error e
        | .ok r => nodeFindPointAux s fuel r dp
      | .ok false => nodeFindPointAux s fuel childLeft dp

/-- `QueryGraph.FindPoint` from a root node id. -/
def FindPoint (root : Nat) (dp : DirectionalPoint) (s : St) : Except PanicVal Nat :=
  nodeFindPointAux s (s.nodes.length + 1) root dp

/-- `node.Inner.(SinkNode).Trapezoid`: Go interface type assertion; a failure
is a runtime error. -/
def assertSinkTrapezoid (nodeId : Nat) (s : St) : Except PanicVal Nat :=
  match s.node nodeId with
  | .sink t _ => .ok t
  | _ => .error (.runtimeErr "interface conversion: not a SinkNode")

/-- `NewQueryGraph`: the single-segment bootstrap — four trapezoids around
the segment and the three-level DAG, with sink initial parents back-linked
(each initial sink has exactly one parent, so setting them directly is
equivalent to the graph-iteration loop in the source).  Returns the root. -/
def NewQueryGraph (segment : Segment) (s : St) : Nat × St :=
  let a := segment.TopPt
  let b := segment.BottomPt
  let (topId, s) := s.allocTrap ⟨none, none, none, some a, .empty, .empty, none⟩
  let (leftId, s) := s.allocTrap ⟨none, some segment, some a, some b, .empty, .empty, none⟩
  let (rightId, s) := s.allocTrap ⟨some segment, none, some a, some b, .empty, .empty, none⟩
  let (bottomId, s) := s.allocTrap ⟨none, none, some b, none, .empty, .empty, none⟩
  let (topSink, s) := s.allocNode (.sink topId none)
  let (leftSink, s) := s.allocNode (.sink leftId none)
  let (rightSink, s) := s.allocNode (.sink rightId none)
  let (bottomSink, s) := s.allocNode (.sink bottomId none)
  let (xId, s) := s.allocNode (.xnode segment leftSink (some rightSink))
  let (ybId, s) := s.allocNode (.ynode b xId bottomSink)
  let (yaId, s) := s.allocNode (.ynode a topSink ybId)
  let s := s.setTrap topId ⟨none, none, none, some a, .empty,
    ⟨some leftId, some rightId, none⟩, some topSink⟩
  let s := s.setTrap leftId ⟨none, some segment, some a, some b,
    ⟨some topId, none, none⟩, ⟨some bottomId, none, none⟩, some leftSink⟩
  let s := s.setTrap rightId ⟨some segment, none, some a, some b,
    ⟨some topId, none, none⟩, ⟨some bottomId, none, none⟩, some rightSink⟩
  let s := s.setTrap bottomId ⟨none, none, some b, none,
    ⟨some leftId, some rightId, none⟩, .empty, some bottomSink⟩
  let s := s.setNode topSink (.sink topId (some yaId))
  let s := s.setNode leftSink (.sink leftId (some xId))
  let s := s.setNode rightSink (.sink rightId (some xId))
  let s := s.setNode bottomSink (.sink bottomId (some ybId))
  (yaId, s)

/-- Add to a trapezoid's Above list (propagating the overflow panic). -/
def trapAboveAdd (i t : Nat) (s : St) : Res Unit :=
  match (s.trap i).TrapezoidsAbove.Add t with
  | .error e => .error e
  | .ok nl => .ok ((), s.setTrap i { s.trap i with TrapezoidsAbove := nl })

def trapBelowAdd (i t : Nat) (s : St) : Res Unit :=
  match (s.trap i).TrapezoidsBelow.Add t with
  | .error e => .error e
  | .ok nl => .ok ((), s.setTrap i { s.trap i with TrapezoidsBelow := nl })

def trapAboveRemove (i t : Nat) (s : St) : St :=
  s.setTrap i { s.trap i with TrapezoidsAbove := (s.trap i).TrapezoidsAbove.Remove t }

def trapBelowRemove (i t : Nat) (s : St) : St :=
  s.setTrap i { s.trap i with TrapezoidsBelow := (s.trap i).TrapezoidsBelow.Remove t }

def trapAboveReplaceOrAdd (i orig repl : Nat) (s : St) : Res Unit :=
  match (s.trap i).TrapezoidsAbove.ReplaceOrAdd orig repl with
  | .error e => .error e
  | .ok nl => .ok ((), s.setTrap i { s.trap i with TrapezoidsAbove := nl })

def trapBelowReplaceOrAdd (i orig repl : Nat) (s : St) : Res Unit :=
  match (s.trap i).TrapezoidsBelow.ReplaceOrAdd orig repl with
  | .error e => .error e
  | .ok nl => .ok ((), s.setTrap i { s.trap i with TrapezoidsBelow := nl })

/-- The back-link loop of the horizontal split: in each above-neighbor of the
upper half, replace the original trapezoid by the upper half in its Below
list. -/
def backlinkAboveNeighbors (origId newId : Nat) : List (Option Nat) → St → Res Unit
  | [], s => .ok ((), s)
  | none :: rest, s => backlinkAboveNeighbors origId newId rest s
  | some neighbor :: rest, s =>
    bnd (trapBelowReplaceOrAdd neighbor origId newId s) fun _ s =>
      backlinkAboveNeighbors origId newId rest s

def backlinkBelowNeighbors (origId newId : Nat) : List (Option Nat) → St → Res Unit
  | [], s => .ok ((), s)
  | none :: rest, s => backlinkBelowNeighbors origId newId rest s
  | some neighbor :: rest, s =>
    bnd (trapAboveReplaceOrAdd neighbor origId newId s) fun _ s =>
      backlinkBelowNeighbors origId newId rest s

/-- `QueryGraph.SplitTrapezoidHorizontally(node, point)`: split the sink's
trapezoid at `point` into an upper and a lower half and replace the sink in
place by a Y-node.  The guard panics — with plain string payloads — when the
point is lexicographically above the Top or at-or-below the Bottom. -/
def SplitTrapezoidHorizontally (nodeId : Nat) (point : Point) (s : St) : Res Unit :=
  bnd (liftP (assertSinkTrapezoid nodeId s) s) fun trapId s =>
  let t := s.trap trapId
  if (match t.Top with
      | some origTop => origTop.Below point
      | none => false) then
    .error (.str "cannot split on point above top")
  else if (match t.Bottom with
           | some origBottom => origBottom.Above point
           | none => false) then
    .error (.str "cannot split on point below bottom")
  else
    let (topId, s) := s.allocTrap { t with Bottom := some point, TrapezoidsBelow := .empty }
    let (bottomId, s) := s.allocTrap { t with Top := some point, TrapezoidsAbove := .empty }
    let (topSink, s) := s.allocNode (.sink topId (some nodeId))
    let (bottomSink, s) := s.allocNode (.sink bottomId (some nodeId))
    let s := s.setTrap topId { s.trap topId with TrapezoidsBelow := ⟨some bottomId, none, none⟩, Sink := some topSink }
    let s := s.setTrap bottomId { s.trap bottomId with TrapezoidsAbove := ⟨some topId, none, none⟩, Sink := some bottomSink }
    bnd (backlinkAboveNeighbors trapId topId t.TrapezoidsAbove.slots s) fun _ s =>
    bnd (backlinkBelowNeighbors trapId bottomId t.TrapezoidsBelow.slots s) fun _ s =>
    .ok ((), s.setNode nodeId (.ynode point topSink bottomSink))

/-- The above-neighbor redistribution loop of `SplitBySegment`. -/
def splitAboveLoop (tId leftId rightId : Nat) : List (Option Nat) → St → Res Unit
  | [], s => .ok ((), s)
  | none :: rest, s => splitAboveLoop tId leftId rightId rest s
  | some neighbor :: rest, s =>
    let s := trapBelowRemove neighbor tId s
    bnd (liftP (NonzeroOverlapWithTrapezoidAbove (s.trap leftId) (s.trap neighbor)) s)
      fun ovLeft s =>
    bnd (if ovLeft then
           bnd (trapAboveAdd leftId neighbor s) fun _ s => trapBelowAdd neighbor leftId s
         else resOk () s) fun _ s =>
    bnd (liftP (NonzeroOverlapWithTrapezoidAbove (s.trap rightId) (s.trap neighbor)) s)
      fun ovRight s =>
    bnd (if ovRight then
           bnd (trapAboveAdd rightId neighbor s) fun _ s => trapBelowAdd neighbor rightId s
         else resOk () s) fun _ s =>
    splitAboveLoop tId leftId rightId rest s

/-- The below-neighbor redistribution loop of `SplitBySegment`. -/
def splitBelowLoop (tId leftId rightId : Nat) : List (Option Nat) → St → Res Unit
  | [], s => .ok ((), s)
  | none :: rest, s => splitBelowLoop tId leftId rightId rest s
  | some neighbor :: rest, s =>
    let s := trapAboveRemove neighbor tId s
    bnd (liftP (NonzeroOverlapWithTrapezoidAbove (s.trap neighbor) (s.trap leftId)) s)
      fun ovLeft s =>
    bnd (if ovLeft then
           bnd (trapBelowAdd leftId neighbor s) fun _ s => trapAboveAdd neighbor leftId s
         else resOk () s) fun _ s =>
    bnd (liftP (NonzeroOverlapWithTrapezoidAbove (s.trap neighbor) (s.trap rightId)) s)
      fun ovRight s =>
    bnd (if ovRight then
           bnd (trapBelowAdd rightId neighbor s) fun _ s => trapAboveAdd neighbor rightId s
         else resOk () s) fun _ s =>
    splitBelowLoop tId leftId rightId rest s

/-- `Trapezoid.SplitBySegment`: make left and right copies separated by the
segment and redistribute each neighbor by the nonzero-overlap test, updating
both sides of the neighbor relation. -/
def SplitBySegment (tId : Nat) (segment : Segment) (s : St) : Res (Nat × Nat) :=
  let t := s.trap tId
  let (leftId, s) := s.allocTrap { t with Right := some segment, TrapezoidsAbove := .empty, TrapezoidsBelow := .empty }
  let (rightId, s) := s.allocTrap { t with Left := some segment, TrapezoidsAbove := .empty, TrapezoidsBelow := .empty }
  bnd (splitAboveLoop tId leftId rightId t.TrapezoidsAbove.slots s) fun _ s =>
  bnd (splitBelowLoop tId leftId rightId t.TrapezoidsBelow.slots s) fun _ s =>
  .ok ((leftId, rightId), s)

/-! ## Segment insertion (querygraph.go `AddSegment`) -/

/-- Choose the next trapezoid of the upward walk among the saved neighbors:
the first one whose bottom the segment intersects. -/
def walkNext (segment : Segment) : List (Option Nat) → St → Except PanicVal (Option Nat)
  | [], _ => .ok none
  | none :: rest, s => walkNext segment rest s
  | some neighbor :: rest, s =>
    match (s.trap neighbor).BottomIntersectsSegment segment with
    | .error e => .error e
    | .ok true => .ok (some neighbor)
    | .ok false => walkNext segment rest s

/-- The upward walk of `AddSegment`: split the current trapezoid by the
segment, then move to the above-neighbor the segment crosses, stopping when
there is none or when the next trapezoid's bottom is the segment's top.
Fueled (each step splits one existing trapezoid, so the walk length is
bounded by the trapezoid count; the generous constant never runs out on the
executions below). -/
def addSegmentWalk (segment : Segment) (top : Point) :
    Nat → Nat → List Nat → List Nat → St → Res (List Nat × List Nat)
  | 0, _, _, _, _ => .error (.runtimeErr "AddSegment walk exceeded trapezoid count")
  | fuel + 1, curId, lefts, rights, s =>
    let nextNeighbors := (s.trap curId).TrapezoidsAbove
    bnd (SplitBySegment curId segment s) fun lr s =>
    let lefts := lefts ++ [lr.1]
    let rights := rights ++ [lr.2]
    let next? : Except PanicVal (Option Nat) :=
      if nextNeighbors.count == 1 then .ok nextNeighbors.AnyNeighbor
      else walkNext segment nextNeighbors.slots s
    match next? with
    | .error e => .error e
    | .ok none => .ok ((lefts, rights), s)
    | .ok (some nextId) =>
      if optPtEq (s.trap nextId).Bottom (some top) then
        .ok ((lefts, rights), s)
      else
        addSegmentWalk segment top fuel nextId lefts rights s

/-- Chunk a chain into runs of consecutively mergeable trapezoids; a
candidate is compared against the *first* element of the current chunk.
Reads only. -/
def chunkChain (s : St) : List Nat → List Nat → List (List Nat) → List (List Nat)
  | [], curChunk, chunks => chunks ++ [curChunk]
  | tId :: rest, curChunk, chunks =>
    if (s.trap (curChunk.getD 0 0)).CanMergeWith (s.trap tId) then
      chunkChain s rest (curChunk ++ [tId]) chunks
    else
      chunkChain s rest [tId] (chunks ++ [curChunk])

/-- `neighbor.TrapezoidsBelow.ReplaceOrAdd(old, merged)` over a slot list. -/
def mergeFixAbove (oldId mergedId : Nat) : List (Option Nat) → St → Res Unit
  | [], s => .ok ((), s)
  | none :: rest, s => mergeFixAbove oldId mergedId rest s
  | some neighbor :: rest, s =>
    bnd (trapBelowReplaceOrAdd neighbor oldId mergedId s) fun _ s =>
      mergeFixAbove oldId mergedId rest s

def mergeFixBelow (oldId mergedId : Nat) : List (Option Nat) → St → Res Unit
  | [], s => .ok ((), s)
  | none :: rest, s => mergeFixBelow oldId mergedId rest s
  | some neighbor :: rest, s =>
    bnd (trapAboveReplaceOrAdd neighbor oldId mergedId s) fun _ s =>
      mergeFixBelow oldId mergedId rest s

/-- Rewire one chunk element's old sink node into the X-node for `segment`
(created on the left pass, completed on the right pass). -/
def rewireChunkSinks (side : XDirection) (segment : Segment) (sinkId : Nat) :
    List Nat → St → Res Unit
  | [], s => .ok ((), s)
  | trapezoidId :: rest, s =>
    match getSome (s.trap trapezoidId).Sink with
    | .error e => .error e
    | .ok nodeId =>
      match side with
      | .Left =>
        rewireChunkSinks side segment sinkId rest
          (s.setNode nodeId (.xnode segment sinkId none))
      | .Right =>
        match s.node nodeId with
        | .xnode key l _ =>
          rewireChunkSinks side segment sinkId rest
            (s.setNode nodeId (.xnode key l (some sinkId)))
        | _ => .error (.runtimeErr "interface conversion: not an XNode")

/-- Merge one chunk into a single trapezoid (geometry from the bottom chunk
element, top and above-neighbors from the top element), fix both sides of the
neighbor relation, allocate the shared sink, rewire each chunk element's old
sink, and point the merged trapezoid at the new sink. -/
def mergeChunk (side : XDirection) (segment : Segment) (chunk : List Nat) (s : St) :
    Res Unit :=
  bnd (if chunk.length == 1 then resOk (chunk.getD 0 0) s
       else
         let bottomTrapezoidId := chunk.getD 0 0
         let topTrapezoidId := chunk.getD (chunk.length - 1) 0
         let bottomTrapezoid := s.trap bottomTrapezoidId
         let topTrapezoid := s.trap topTrapezoidId
         let (mergedId, s) := s.allocTrap { bottomTrapezoid with Top := topTrapezoid.Top, TrapezoidsAbove := topTrapezoid.TrapezoidsAbove }
         bnd (mergeFixAbove topTrapezoidId mergedId (s.trap mergedId).TrapezoidsAbove.slots s)
           fun _ s =>
         bnd (mergeFixBelow bottomTrapezoidId mergedId (s.trap mergedId).TrapezoidsBelow.slots s)
           fun _ s =>
         resOk mergedId s) fun mergedId s =>
  let (sinkId, s) := s.allocNode (.sink mergedId none)
  bnd (rewireChunkSinks side segment sinkId chunk s) fun _ s =>
  .ok ((), s.setTrap mergedId { s.trap mergedId with Sink := some sinkId })

def mergeChunks (side : XDirection) (segment : Segment) :
    List (List Nat) → St → Res Unit
  | [], s => .ok ((), s)
  | chunk :: rest, s =>
    bnd (mergeChunk side segment chunk s) fun _ s => mergeChunks side segment rest s

/-- Process one side's chain: chunk it, then merge every chunk. -/
def mergeChainPass (side : XDirection) (segment : Segment) (chain : List Nat) (s : St) :
    Res Unit :=
  match chain with
  | [] => .error (.runtimeErr "index out of range")
  | c0 :: rest => mergeChunks side segment (chunkChain s rest [c0] []) s

/-- `QueryGraph.AddSegment`: locate (and if needed create by horizontal
split) the trapezoids whose boundaries carry the segment's endpoints, walk
upward splitting every crossed trapezoid, then merge agreeing pieces and
rewire the DAG on both sides. -/
def AddSegment (root : Nat) (segment : Segment) (s : St) : Res Unit :=
  let top := segment.TopPt
  let bottom := segment.BottomPt
  bnd (liftP (FindPoint root (top.PointingAt bottom) s) s) fun nodeId s =>
  bnd (liftP (assertSinkTrapezoid nodeId s) s) fun topTrapezoidId s =>
  bnd (if !((s.trap topTrapezoidId).HasPoint top) then
         SplitTrapezoidHorizontally nodeId top s
       else resOk () s) fun _ s =>
  bnd (liftP (FindPoint root (bottom.PointingAt top) s) s) fun nodeId2 s =>
  bnd (liftP (assertSinkTrapezoid nodeId2 s) s) fun bottomTrapezoidId s =>
  bnd (if !((s.trap bottomTrapezoidId).HasPoint bottom) then
         bnd (SplitTrapezoidHorizontally nodeId2 bottom s) fun _ s =>
         match s.node nodeId2 with
         | .ynode _ above _ => liftP (assertSinkTrapezoid above s) s
         | _ => .error (.runtimeErr "interface conversion: not a YNode")
       else resOk bottomTrapezoidId s) fun startId s =>
  bnd (addSegmentWalk segment top 1000 startId [] [] s) fun chains s =>
  bnd (mergeChainPass .Left segment chains.1 s) fun _ s =>
  mergeChainPass .Right segment chains.2 s

/-! ## Polygon insertion and graph iteration (querygraph.go) -/

/-- Build the polygon's edge segments in order (`&Segment{points[i],
points[i+1 mod n]}`). -/
def buildSegments (pts : List Point) (n : Nat) : List Nat → List Segment → St →
    List Segment × St
  | [], acc, s => (acc, s)
  | i :: rest, acc, s =>
    let (seg, s) := s.allocSeg (pts.getD i ⟨0, 0, 0⟩) (pts.getD ((i + 1) % n) ⟨0, 0, 0⟩)
    buildSegments pts n rest (acc ++ [seg]) s

def addSegments (root : Nat) : List Segment → St → Res Unit
  | [], s => .ok ((), s)
  | seg :: rest, s => bnd (AddSegment root seg s) fun _ s => addSegments root rest s

/-- `QueryGraph.AddPolygon` with the shuffled edge order made explicit.

The Go source builds the edge segments in order, shuffles them with a seeded
`math/rand` generator (seed 0 in deterministic mode), bootstraps the graph
from the first segment when the graph is empty, and adds the rest.  We do not
reproduce Go's generator; instead the resulting permutation is a parameter
`order` (a list of indices into the edge list), and the theorems below either
hold for every permutation or are evaluated on all of them.  An empty polygon
makes `segments[0]` an out-of-range index — a Go runtime error. -/
def AddPolygon (root? : Option Nat) (poly : Polygon) (order : List Nat) (s : St) :
    Res (Option Nat) :=
  let pts := poly.Points
  let n := pts.length
  let (segments, s) := buildSegments pts n (List.range n) [] s
  let shuffled := order.map (fun i => segments.getD i ⟨0, ⟨0, 0, 0⟩, ⟨0, 0, 0⟩⟩)
  match root? with
  | none =>
    match shuffled with
    | [] => .error (.runtimeErr "index out of range")
    | s0 :: rest =>
      let (r, s) := NewQueryGraph s0 s
      bnd (addSegments r rest s) fun _ s => .ok (some r, s)
  | some r =>
    bnd (addSegments r shuffled s) fun _ s => .ok (some r, s)

/-- Depth-first traversal of the query DAG, collecting each reachable node
once (the `GraphIterator` with its `seen` map).  Traversal order only feeds
set constructions, so it is irrelevant downstream.  Reads only. -/
def iterateNodesAux (s : St) : Nat → List Nat → List Nat → List Nat →
    Except PanicVal (List Nat)
  | 0, _, _, _ => .error (.runtimeErr "graph iteration exceeded fuel")
  | _, [], _, acc => .ok acc
  | fuel + 1, nodeId :: stack, seen, acc =>
    if seen.contains nodeId then
      iterateNodesAux s fuel stack seen acc
    else
      let children := match s.node nodeId with
        | .sink _ _ => []
        | .ynode _ above below => [above, below]
        | .xnode _ l r => match r with
          | some rr => [l, rr]
          | none => [l]
      iterateNodesAux s fuel (children ++ stack) (nodeId :: seen) (acc ++ [nodeId])

/-- The trapezoids named by reachable sinks, deduplicated
(`IterateTrapezoids`). -/
def iterateTrapezoidIds (root : Nat) (s : St) : Except PanicVal (List Nat) :=
  match iterateNodesAux s (4 * s.nodes.length + 4) [root] [] [] with
  | .error e => .error e
  | .ok nodeIds =>
    .ok (nodeIds.foldl
      (fun acc nodeId =>
        match s.node nodeId with
        | .sink t _ => if acc.contains t then acc else acc ++ [t]
        | _ => acc)
      [])

/-! ## Monotone decomposition (ConvertToMonotones, package advanced) -/

/-- One step of `splitTrapezoidsOnDiagonals`: skip when Top and Bottom are
the endpoints of one side segment; otherwise split along the Top→Bottom
diagonal and replace the trapezoid by the two halves.

Go iterates a map while deleting the processed key and inserting the halves;
whether an inserted half gets visited is unspecified, but visiting one is a
no-op (a half has its diagonal as one side, whose endpoints are exactly Top
and Bottom, so the skip test fires).  We therefore process a worklist that
does include the inserted halves. -/
def splitOnDiagonalsStep (set : List Nat) (tId : Nat) (s : St) :
    Res (List Nat × List Nat) :=
  let t := s.trap tId
  let leftTop := optSegTop t.Left
  let leftBottom := optSegBottom t.Left
  let rightTop := optSegTop t.Right
  let rightBottom := optSegBottom t.Right
  if optPtEq t.Top leftTop && optPtEq t.Bottom leftBottom then
    .ok ((set, []), s)
  else if optPtEq t.Top rightTop && optPtEq t.Bottom rightBottom then
    .ok ((set, []), s)
  else
    match getSome t.Top with
    | .error e => .error e
    | .ok top =>
    match getSome t.Bottom with
    | .error e => .error e
    | .ok bottom =>
      let (segment, s) := s.allocSeg top bottom
      bnd (SplitBySegment tId segment s) fun lr s =>
      .ok (((set.filter (· != tId)) ++ [lr.1, lr.2], [lr.1, lr.2]), s)

def splitTrapezoidsOnDiagonalsAux : Nat → List Nat → List Nat → St → Res (List Nat)
  | 0, _, _, _ => .error (.runtimeErr "diagonal splitting exceeded fuel")
  | _, [], set, s => .ok (set, s)
  | fuel + 1, tId :: worklist, set, s =>
    if set.contains tId then
      bnd (splitOnDiagonalsStep set tId s) fun res s =>
        splitTrapezoidsOnDiagonalsAux fuel (worklist ++ res.2) res.1 s
    else
      splitTrapezoidsOnDiagonalsAux fuel worklist set s

def splitTrapezoidsOnDiagonals (set : List Nat) (s : St) : Res (List Nat) :=
  splitTrapezoidsOnDiagonalsAux (s.traps.length + 2 * set.length + 2) set set s

/-- Climb to the top of a monotone chain: follow `AnyNeighbor` of the above
list while it stays inside the working set.  Reads only. -/
def climbToChainTop (s : St) : Nat → Nat → List Nat → Except PanicVal Nat
  | 0, _, _ => .error (.runtimeErr "chain climb exceeded fuel")
  | fuel + 1, curId, set =>
    match (s.trap curId).TrapezoidsAbove.AnyNeighbor with
    | none => .ok curId
    | some aboveNeighbor =>
      if set.contains aboveNeighbor then
        climbToChainTop s fuel aboveNeighbor set
      else
        .ok curId

/-- Descend a chain from its top, collecting each trapezoid's bottom point on
the left or right chain (matched by pointer identity against the side
segments' bottom endpoints), removing visited trapezoids from the set.
Returns the chains and the depleted set.  Reads only. -/
def descendChain (s : St) : Nat → Nat → List Nat → List Point → List Point →
    Except PanicVal (List Point × List Point × List Nat)
  | 0, _, _, _, _ => .error (.runtimeErr "chain descent exceeded fuel")
  | fuel + 1, curId, set, leftChain, rightChain =>
    let t := s.trap curId
    let bottom := t.Bottom
    let leftBottom := optSegBottom t.Left
    let rightBottom := optSegBottom t.Right
    if optPtEq bottom leftBottom && optPtEq bottom rightBottom then
      match getSome bottom with
      | .error e => .error e
      | .ok b => .ok (leftChain ++ [b], rightChain, set.filter (· != curId))
    else
      match
        (if optPtEq bottom leftBottom then
           match getSome bottom with
           | .error e => .error e
           | .ok b => .ok (leftChain ++ [b], rightChain)
         else if optPtEq bottom rightBottom then
           match getSome bottom with
           | .error e => .error e
           | .ok b => .ok (leftChain, rightChain ++ [b])
         else
           .error (fatalf "bottom point was not on either chain") :
          Except PanicVal (List Point × List Point)) with
      | .error e => .error e
      | .ok res =>
        let set := set.filter (· != curId)
        match (s.trap curId).TrapezoidsBelow.AnyNeighbor with
        | none => .ok (res.1, res.2, set)
        | some belowNeighbor =>
          if set.contains belowNeighbor then
            descendChain s fuel belowNeighbor set res.1 res.2
          else
            .ok (res.1, res.2, set)

/-- Extract one monotone polygon starting from an arbitrary member of the
working set.  Go picks the member by randomized map iteration; we pick the
smallest id.  The polygons this file reasons about have order-independent
extractions (each chain is consumed whole from any starting member). -/
def extractMonotone (startId : Nat) (set : List Nat) (s : St) :
    Except PanicVal (Polygon × List Nat) :=
  match climbToChainTop s (s.traps.length + 1) startId set with
  | .error e => .error e
  | .ok chainTop =>
  match getSome (s.trap chainTop).Top with
  | .error e => .error e
  | .ok topPoint =>
  match descendChain s (s.traps.length + 1) chainTop set [topPoint] [] with
  | .error e => .error e
  | .ok res =>
    let points := res.1 ++ res.2.1.reverse
    if points.length < 3 then
      .error (fatalf "polygon is degenerate")
    else
      .ok (Polygon.mk points, res.2.2)

def extractAllMonotones (s : St) : Nat → List Nat → List Polygon →
    Except PanicVal (List Polygon)
  | 0, _, _ => .error (.runtimeErr "monotone extraction exceeded fuel")
  | _, [], acc => .ok acc
  | fuel + 1, set, acc =>
    let startId := set.foldl min (set.getD 0 0)
    match extractMonotone startId set s with
    | .error e => .error e
    | .ok res => extractAllMonotones s fuel res.2 (acc ++ [res.1])

def addPolygons : List (Polygon × List Nat) → Option Nat → St → Res (Option Nat)
  | [], root?, s => .ok (root?, s)
  | pair :: rest, root?, s =>
    bnd (AddPolygon root? pair.1 pair.2 s) fun root? s => addPolygons rest root? s

/-- Collect the inside trapezoids among the reachable ones. -/
def insideTrapezoids (s : St) (ids : List Nat) : List Nat :=
  ids.foldl (fun acc tId => if (s.trap tId).IsInside then acc ++ [tId] else acc) []

/-- `ConvertToMonotones`: build the query graph over all polygons (each with
its explicit insertion order), collect the inside trapezoids, split
diagonals, and extract the y-monotone polygons.  An empty polygon list leaves
a nil root, and Go's `IterateGraph(nil)` dereferences the nil node. -/
def ConvertToMonotones (list : List (Polygon × List Nat)) (s : St) : Res (List Polygon) :=
  bnd (addPolygons list none s) fun root? s =>
  match root? with
  | none => .error (.runtimeErr "invalid memory address or nil pointer dereference")
  | some root =>
    match iterateTrapezoidIds root s with
    | .error e => .error e
    | .ok allIds =>
      -- canonical ascending processing order for the map-iteration loops
      let set := sortNat (insideTrapezoids s allIds)
      bnd (splitTrapezoidsOnDiagonals set s) fun set s =>
      let set := sortNat set
      liftP (extractAllMonotones s (set.length + 1) set []) s

/-! ## Driver (part_008, triangulate.go, part_000) -/

/-- `PolygonList.Triangulate`: monotone decomposition followed by the
stack-based sweep of every piece. -/
def runMonotones : List Polygon → List Triangle → Except PanicVal (List Triangle)
  | [], acc => .ok acc
  | monotone :: rest, acc =>
    match TriangulateMonotone monotone with
    | .error e => .error e
    | .ok triangles => runMonotones rest (acc ++ triangles)

def PolygonListTriangulate (list : List (Polygon × List Nat)) (s : St) :
    Res (List Triangle) :=
  bnd (ConvertToMonotones list s) fun monotones s =>
  liftP (runMonotones monotones []) s

/-- `HandleTriangulatePanicRecover`: Go's recover trampoline.  `nil` recovers
to no error; a payload implementing `error` (the `fatalf` signal — and also
runtime errors, since `type TriangulateError error` has the same method set
as `error`) is returned; any other payload is re-panicked. -/
def HandleTriangulatePanicRecover : Option PanicVal → Except PanicVal (Option String)
  | none => .ok none
  | some (.fatal msg) => .ok (some msg)
  | some (.runtimeErr msg) => .ok (some msg)
  | some (.str msg) => .error (.str msg)

/-- The public `Triangulate`: run the pipeline under the deferred recover.
`.ok (triangles, none)` is success; `.ok ([], some msg)` is the error return
(`result` is reset to nil); `.error p` is an uncaught panic escaping the
call. -/
def TriangulatePublic (list : List (Polygon × List Nat)) :
    Except PanicVal (List Triangle × Option String) :=
  match PolygonListTriangulate list St.empty with
  | .ok (triangles, _) => .ok (triangles, none)
  | .error p =>
    match HandleTriangulatePanicRecover (some p) with
    | .ok err => .ok ([], err)
    | .error p2 => .error p2

/-! ## Advanced API entry points (querygraph.go) -/

/-- `QueryGraph.FindPoint` through the stored root pointer: an empty graph
has `Root == nil`, and `graph.Root.FindPoint(dp)` dereferences the nil
`*QueryNode` (`n.Inner`), a runtime error. -/
def QueryGraphFindPoint (root? : Option Nat) (dp : DirectionalPoint) (s : St) :
    Except PanicVal Nat :=
  match root? with
  | none => .error (.runtimeErr "invalid memory address or nil pointer dereference")
  | some root => FindPoint root dp s

/-- `QueryGraph.ContainsPoint`: locate the point rightward and report the
containing trapezoid's inside predicate.  (The source's `== nil` check after
`FindPoint` is dead code: `FindPoint` returns a node or panics.) -/
def ContainsPoint (root? : Option Nat) (point : Point) (s : St) :
    Except PanicVal Bool :=
  match QueryGraphFindPoint root? point.PointingRight s with
  | .error e => .error e
  | .ok nodeId =>
    match assertSinkTrapezoid nodeId s with
    | .error e => .error e
    | .ok tId => .ok (s.trap tId).IsInside

/-! ## Specification-side variants (for refinement comparison only)

These two definitions follow the WORDS OF THE SPEC (§4.1: "if horizontal,
compare max(endpoint.x) vs p.x"; "IsRightOf is symmetric"), not the source,
to be compared against the source-derived `IsLeftOf`/`IsRightOf`. -/

def specIsLeftOf (s? : Option Segment) (p : Point) : Except PanicVal Bool :=
  match s? with
  | none => .ok true
  | some s =>
    if Equal s.Start.Y s.End.Y then
      .ok (LessThan (Q.maxQ s.Start.X s.End.X) p.X)
    else if ptrEq s.Start p || ptrEq s.End p then
      .ok false
    else
      match s.SolveForX p.Y with
      | .error e => .error e
      | .ok x => .ok (LessThan x p.X)

/-- The mirror image of `specIsLeftOf` (the spec says "IsRightOf is
symmetric"): horizontal case compares min(endpoint.x) vs p.x the other way. -/
def specIsRightOf (s? : Option Segment) (p : Point) : Except PanicVal Bool :=
  match s? with
  | none => .ok true
  | some s =>
    if Equal s.Start.Y s.End.Y then
      .ok (GreaterThan (Q.minQ s.Start.X s.End.X) p.X)
    else if ptrEq s.Start p || ptrEq s.End p then
      .ok false
    else
      match s.SolveForX p.Y with
      | .error e => .error e
      | .ok x => .ok (GreaterThan x p.X)

/-! ## Invariant helpers for stating theorems -/

/-- The trapezoid's neighbor back-links are consistent: every above-neighbor
is a valid id whose Below list points back, and symmetrically.  This holds in
every state the library constructs (the reciprocal-invariant of the spec) and
is the hypothesis under which `SplitTrapezoidHorizontally` cannot overflow a
neighbor list. -/
def backLinked (s : St) (trapId : Nat) : Bool :=
  ((s.trap trapId).TrapezoidsAbove.slots.all fun slot =>
    match slot with
    | none => true
    | some i => decide (i < s.traps.length) &&
        (s.trap i).TrapezoidsBelow.slots.contains (some trapId)) &&
  ((s.trap trapId).TrapezoidsBelow.slots.all fun slot =>
    match slot with
    | none => true
    | some i => decide (i < s.traps.length) &&
        (s.trap i).TrapezoidsAbove.slots.contains (some trapId))

/-! ## Concrete inputs used by the claim theorems

All coordinates are exactly representable in float64 or within margins that
dwarf float rounding error, and every vector length the executions take is a
rational square (see `ratSqrt`). -/

/-- A single-point polygon (degenerate input; fewer than three vertices). -/
def onePtPoly : Polygon := ⟨[⟨0, 0, 0⟩]⟩

/-- The empty polygon (zero vertices). -/
def emptyPoly : Polygon := ⟨[]⟩

/-- A two-point polygon (degenerate input). -/
def twoPtPoly : Polygon := ⟨[⟨0, 0, 0⟩, ⟨1, 3, 4⟩]⟩

/-- `u = (k²-1)/(2k)` for `k = 100001/100000`, so that `√(1+u²) = (k²+1)/(2k)`
is rational: `u ≈ 1.000005e-5`. -/
def sliverU : Q := ⟨200001, 20000200000⟩

/-- A valid input on which Triangulate emits a sub-Epsilon triangle: a simple,
strictly CCW sliver triangle `(0,0), (1/4, u/4), (0, u/2)` of signed area
`u/16 ≈ 6.25e-7 < 1e-6`.  Its y gaps (`u/4 ≈ 2.5e-6`) exceed Epsilon, so no
edge is horizontal, and all three side lengths are rational. -/
def sliverPoly : Polygon :=
  ⟨[⟨0, 0, 0⟩, ⟨1, ⟨1, 4⟩, ⟨200001, 80000800000⟩⟩, ⟨2, 0, ⟨200001, 40000400000⟩⟩]⟩

/-- The triangle Triangulate returns on `sliverPoly` (for every one of the six
insertion orders): the input triangle, rotated to start at its top vertex. -/
def sliverTri : Triangle :=
  ⟨⟨2, ⟨0, 1⟩, ⟨200001, 40000400000⟩⟩, ⟨0, ⟨0, 1⟩, ⟨0, 1⟩⟩,
   ⟨1, ⟨1, 4⟩, ⟨200001, 80000800000⟩⟩⟩

/-- A CCW unit square. -/
def sqPolyA : Polygon := ⟨[⟨0, 1, -1⟩, ⟨1, 1, 1⟩, ⟨2, -1, 1⟩, ⟨3, -1, -1⟩]⟩

/-- The same square again with fresh point identities: inserting its edges
into the same graph violates the no-intersection precondition and drives the
construction into the horizontal-split guard. -/
def sqPolyB : Polygon := ⟨[⟨10, 1, -1⟩, ⟨11, 1, 1⟩, ⟨12, -1, 1⟩, ⟨13, -1, -1⟩]⟩

/-- A horizontal segment from (0,0) to (10,0). -/
def horizSeg : Segment := ⟨50, ⟨60, 0, 0⟩, ⟨61, 10, 0⟩⟩

/-- The same horizontal segment with Start and End swapped. -/
def horizSegRev : Segment := ⟨51, ⟨61, 10, 0⟩, ⟨60, 0, 0⟩⟩

/-- A point midway along `horizSeg`, distinct by identity from its endpoints. -/
def midPt : Point := ⟨62, 5, 0⟩

/-- A one-trapezoid store: trapezoid 0 spans Bottom (0,0) to Top (0,1), named
by sink node 0. -/
def oneTrapSt : St :=
  ⟨[⟨none, none, some ⟨70, 0, 1⟩, some ⟨71, 0, 0⟩, .empty, .empty, some 0⟩],
   [.sink 0 none], 0⟩

/-- A fresh point lexicographically coincident with `oneTrapSt`'s Top. -/
def topCoincidentPt : Point := ⟨72, 0, 1⟩

/-- A fresh point lexicographically coincident with `oneTrapSt`'s Bottom. -/
def bottomCoincidentPt : Point := ⟨73, 0, 0⟩

/-- A fresh point strictly between Bottom and Top. -/
def interiorPt : Point := ⟨74, 0, ⟨1, 2⟩⟩

/-- A clockwise triangle (signed area −1/2). -/
def cwTri : Triangle := ⟨⟨80, 0, 0⟩, ⟨81, 0, 1⟩, ⟨82, 1, 0⟩⟩

/-- A CCW y-monotone pentagon exercising the general sweep path (5 points). -/
def pentPoly : Polygon :=
  ⟨[⟨90, 0, 0⟩, ⟨91, 2, 0⟩, ⟨92, 3, 2⟩, ⟨93, 2, 4⟩, ⟨94, 0, 3⟩]⟩

/-! ## Result observations (used to state hypotheses without spelling out
whole stores) -/

/-- The triangle list of a normally returned pipeline run. -/
def resultTriangles (r : Res (List Triangle)) : Option (List Triangle) :=
  match r with
  | .ok (ts, _) => some ts
  | .error _ => none

/-- The panic payload of an aborted pipeline run. -/
def resultPanic (r : Res (List Triangle)) : Option PanicVal :=
  match r with
  | .ok _ => none
  | .error p => some p

/-- Did a unit step complete without panicking? -/
def stepOk (r : Res Unit) : Bool :=
  match r with
  | .ok _ => true
  | .error _ => false

/-! # Theorems -/

/-- C10: on a `QueryGraph` to which no polygon or segment was ever added
(`Root == nil`), both advanced-API queries dereference the nil root and panic
(a Go runtime error) for every point and direction — neither returns `false`
or nil. -/
theorem C10_nil_root_queries_panic (dp : DirectionalPoint) (p : Point) (s : St) :
    QueryGraphFindPoint none dp s =
      .error (.runtimeErr "invalid memory address or nil pointer dereference")
  ∧ ContainsPoint none p s =
      .error (.runtimeErr "invalid memory address or nil pointer dereference") := by
  exact ⟨rfl, rfl⟩

/-- C8 counterexample: the claim's horizontal rule ("compare max(endpoint.x)
vs p.x"; "IsRightOf is symmetric") is false on the code.  For the horizontal
segment (0,0)→(10,0) and the midpoint (5,0): the source `IsLeftOf` compares
`Bottom().X` (= min endpoint x, here 0) and answers true, while the spec's
max rule answers false; and for the reversed segment the source `IsRightOf`
answers true (Start.x > p.x > End.x) where the symmetric rule answers false —
indeed the source reports the midpoint as both left and right of it. -/
theorem C8_counterexample :
    IsLeftOf (some horizSeg) midPt = .ok true
  ∧ specIsLeftOf (some horizSeg) midPt = .ok false
  ∧ IsRightOf (some horizSegRev) midPt = .ok true
  ∧ specIsRightOf (some horizSegRev) midPt = .ok false
  ∧ IsLeftOf (some horizSegRev) midPt = .ok true := by
  refine ⟨?_, ?_, ?_, ?_, ?_⟩ <;> decide

/-- C8 (amended): `Segment.IsLeftOf(p)` behaves as follows: a nil segment
returns true; a horizontal segment is compared by `Bottom().X` — the
lexicographically lower endpoint's x, i.e. min(endpoint.x) — versus `p.X`
under strict tolerance (the endpoint-identity check is skipped in this case);
otherwise, if either endpoint equals `p` by identity the result is false;
otherwise the result is `SolveForX(p.Y) < p.X` under strict tolerance.
`IsRightOf` is *not* symmetric: its horizontal case tests
`Start.X > p.X > End.X` under strict tolerance. -/
theorem C8_IsLeftOf_characterization (s : Segment) (p : Point) :
    IsLeftOf none p = .ok true
  ∧ IsRightOf none p = .ok true
  ∧ (Equal s.Start.Y s.End.Y = true →
      IsLeftOf (some s) p = .ok (LessThan s.BottomPt.X p.X)
    ∧ IsRightOf (some s) p =
        .ok (GreaterThan s.Start.X p.X && GreaterThan p.X s.End.X))
  ∧ (Equal s.Start.Y s.End.Y = false →
      (ptrEq s.Start p || ptrEq s.End p) = true →
      IsLeftOf (some s) p = .ok false ∧ IsRightOf (some s) p = .ok false)
  ∧ (Equal s.Start.Y s.End.Y = false →
      (ptrEq s.Start p || ptrEq s.End p) = false →
      ∀ x, s.SolveForX p.Y = .ok x →
        IsLeftOf (some s) p = .ok (LessThan x p.X)
      ∧ IsRightOf (some s) p = .ok (GreaterThan x p.X)) := by
  refine ⟨rfl, rfl, ?_, ?_, ?_⟩
  · intro h
    constructor <;> simp [IsLeftOf, IsRightOf, h]
  · intro h hid
    constructor <;> simp [IsLeftOf, IsRightOf, h, hid]
  · intro h hid x hx
    constructor <;> simp [IsLeftOf, IsRightOf, h, hid, hx]

/-- Witness for `C8_IsLeftOf_characterization` at concrete inputs: the
horizontal case at `horizSeg`/`midPt`, the identity case and the solved case
on a slanted segment. -/
theorem C8_IsLeftOf_characterization_witness :
    IsLeftOf (some horizSeg) midPt = .ok (LessThan horizSeg.BottomPt.X midPt.X)
  ∧ IsLeftOf (some ⟨55, ⟨60, 0, 0⟩, ⟨61, 10, 10⟩⟩) ⟨60, 0, 0⟩ = .ok false
  ∧ IsLeftOf (some ⟨55, ⟨60, 0, 0⟩, ⟨61, 10, 10⟩⟩) ⟨63, 9, 5⟩ = .ok (LessThan ⟨500, 100⟩ 9) := by
  refine ⟨?_, ?_, ?_⟩
  · exact ((C8_IsLeftOf_characterization horizSeg midPt).2.2.1 (by decide)).1
  · exact ((C8_IsLeftOf_characterization ⟨55, ⟨60, 0, 0⟩, ⟨61, 10, 10⟩⟩
      ⟨60, 0, 0⟩).2.2.2.1 (by decide) (by decide)).1
  · exact (((C8_IsLeftOf_characterization ⟨55, ⟨60, 0, 0⟩, ⟨61, 10, 10⟩⟩
      ⟨63, 9, 5⟩).2.2.2.2 (by decide) (by decide)) ⟨500, 100⟩ (by decide)).1

/-- C2 counterexample: a panic that is not the internal fatal signal does
*not* propagate out of `Triangulate` unchanged.  The empty polygon makes the
pipeline hit `segments[0]` — an index-out-of-range runtime error, not a
`fatalf` signal — yet the public API catches it and returns it as the error
(in Go, `type TriangulateError error` has the same method set as `error`, so
the trampoline's type assertion also succeeds on runtime errors). -/
theorem C2_counterexample :
    PolygonListTriangulate [(emptyPoly, [])] St.empty =
      .error (.runtimeErr "index out of range")
  ∧ (PanicVal.runtimeErr "index out of range" ≠ fatalf "index out of range")
  ∧ TriangulatePublic [(emptyPoly, [])] = .ok ([], some "index out of range")
  ∧ HandleTriangulatePanicRecover (some (.runtimeErr "index out of range")) ≠
      .error (.runtimeErr "index out of range") := by
  refine ⟨?_, ?_, ?_, ?_⟩ <;> decide

/-- C2 (amended): the public `Triangulate` trampoline catches exactly the
panics whose payload implements the `error` interface — the `fatalf` fatal
signal *and* Go runtime errors (since `TriangulateError` is declared as an
interface identical to `error`) — returning the message as the non-nil error
with a nil triangle list; panics carrying non-error payloads (plain strings)
propagate out unchanged; on success the error is nil and the triangles are
returned. -/
theorem C2_trampoline_behavior (list : List (Polygon × List Nat)) :
    (∀ ts, resultTriangles (PolygonListTriangulate list St.empty) = some ts →
      TriangulatePublic list = .ok (ts, none))
  ∧ (∀ msg, resultPanic (PolygonListTriangulate list St.empty) = some (.fatal msg) →
      TriangulatePublic list = .ok ([], some msg))
  ∧ (∀ msg, resultPanic (PolygonListTriangulate list St.empty) = some (.runtimeErr msg) →
      TriangulatePublic list = .ok ([], some msg))
  ∧ (∀ msg, resultPanic (PolygonListTriangulate list St.empty) = some (.str msg) →
      TriangulatePublic list = .error (.str msg)) := by
  refine ⟨?_, ?_, ?_, ?_⟩
  · intro ts h
    unfold TriangulatePublic
    cases hP : PolygonListTriangulate list St.empty with
    | ok r =>
      obtain ⟨ts', s'⟩ := r
      simp only [resultTriangles, hP] at h
      simp only [Option.some.injEq] at h
      subst h
      rfl
    | error p =>
      simp only [resultTriangles, hP] at h
      exact Option.noConfusion h
  · intro msg h
    unfold TriangulatePublic
    cases hP : PolygonListTriangulate list St.empty with
    | ok r =>
      simp only [resultPanic, hP] at h
      exact Option.noConfusion h
    | error p =>
      simp only [resultPanic, hP, Option.some.injEq] at h
      subst h
      rfl
  · intro msg h
    unfold TriangulatePublic
    cases hP : PolygonListTriangulate list St.empty with
    | ok r =>
      simp only [resultPanic, hP] at h
      exact Option.noConfusion h
    | error p =>
      simp only [resultPanic, hP, Option.some.injEq] at h
      subst h
      rfl
  · intro msg h
    unfold TriangulatePublic
    cases hP : PolygonListTriangulate list St.empty with
    | ok r =>
      simp only [resultPanic, hP] at h
      exact Option.noConfusion h
    | error p =>
      simp only [resultPanic, hP, Option.some.injEq] at h
      subst h
      rfl

/-- Witness for `C2_trampoline_behavior`: each trampoline branch observed on
a concrete run — success (one-point polygon), a fatal signal (two-point
polygon, insertion order [0,1]), a runtime error (empty polygon), and an
escaping plain-string panic (two coincident squares). -/
theorem C2_trampoline_behavior_witness :
    TriangulatePublic [(onePtPoly, [0])] = .ok ([], none)
  ∧ TriangulatePublic [(twoPtPoly, [0, 1])] = .ok ([], some "polygon is degenerate")
  ∧ TriangulatePublic [(emptyPoly, [])] = .ok ([], some "index out of range")
  ∧ TriangulatePublic [(sqPolyA, [0, 1, 2, 3]), (sqPolyB, [0, 1, 2, 3])] =
      .error (.str "cannot split on point below bottom") := by
  refine ⟨?_, ?_, ?_, ?_⟩
  · exact (C2_trampoline_behavior [(onePtPoly, [0])]).1 [] (by decide)
  · exact (C2_trampoline_behavior [(twoPtPoly, [0, 1])]).2.1
      "polygon is degenerate" (by decide)
  · exact (C2_trampoline_behavior [(emptyPoly, [])]).2.2.1
      "index out of range" (by decide)
  · exact (C2_trampoline_behavior [(sqPolyA, [0, 1, 2, 3]), (sqPolyB, [0, 1, 2, 3])]).2.2.2
      "cannot split on point below bottom" (by decide)

/-- C5 counterexample: a single-vertex polygon — fewer than three vertices —
does not produce a non-nil error: `Triangulate` returns an empty triangle
list with a nil error (no validation happens; the lone zero-length segment
bootstraps a graph with no inside trapezoid, so no monotone piece is ever
extracted). -/
theorem C5_counterexample :
    onePtPoly.Points.length < 3
  ∧ TriangulatePublic [(onePtPoly, [0])] = .ok ([], none) := by
  exact ⟨by decide, by decide⟩

/-- C5 (amended): inputs with fewer than three vertices are not validated up
front and do not uniformly fail: a one-point polygon succeeds with an empty
list and nil error; a zero-point polygon raises an index-out-of-range runtime
error that the trampoline returns as the error; a two-point polygon (under
insertion order [0,1]) aborts with the fatal "polygon is degenerate" signal
in the monotone-extraction check of `ConvertToMonotones`, surfaced by the
trampoline as the error; and `TriangulateMonotone` itself fatally rejects any
polygon with fewer than three points, with the distinct "cannot triangulate
degenerate polygon" message. -/
theorem C5_degenerate_inputs (polygon : Polygon) :
    TriangulatePublic [(onePtPoly, [0])] = .ok ([], none)
  ∧ TriangulatePublic [(emptyPoly, [])] = .ok ([], some "index out of range")
  ∧ TriangulatePublic [(twoPtPoly, [0, 1])] = .ok ([], some "polygon is degenerate")
  ∧ (polygon.Points.length < 3 →
      TriangulateMonotone polygon = .error (.fatal
        ("cannot triangulate degenerate polygon with point count: " ++
          toString polygon.Points.length))) := by
  refine ⟨by decide, by decide, by decide, ?_⟩
  intro h
  unfold TriangulateMonotone
  rw [if_pos h]
  rfl

/-- Witness for `C5_degenerate_inputs` at the two-point polygon. -/
theorem C5_degenerate_inputs_witness :
    TriangulateMonotone twoPtPoly = .error (.fatal
      ("cannot triangulate degenerate polygon with point count: " ++ toString 2)) := by
  exact (C5_degenerate_inputs twoPtPoly).2.2.2 (by decide)

/-- C4 counterexample: not every §7 invariant violation is raised as the
catchable fatal signal.  The neighbor-list overflow, the horizontal-split
guard, and `SolveForX` on a horizontal segment all panic with plain string
payloads, which the trampoline re-panics instead of returning as the error —
shown end-to-end by the coincident-squares input, whose run escapes
`Triangulate` as an uncaught panic. -/
theorem C4_counterexample :
    TrapezoidNeighborList.Add ⟨some 1, some 2, some 3⟩ 4 =
      .error (.str "too many neighbors")
  ∧ Segment.SolveForX horizSeg 0 =
      .error (.str "Cannot solve for X on a horizontal segment")
  ∧ SplitTrapezoidHorizontally 0 bottomCoincidentPt oneTrapSt =
      .error (.str "cannot split on point below bottom")
  ∧ HandleTriangulatePanicRecover (some (.str "too many neighbors")) =
      .error (.str "too many neighbors")
  ∧ HandleTriangulatePanicRecover (some (.str "too many neighbors")) ≠
      .ok (some "too many neighbors")
  ∧ TriangulatePublic [(sqPolyA, [0, 1, 2, 3]), (sqPolyB, [0, 1, 2, 3])] =
      .error (.str "cannot split on point below bottom") := by
  refine ⟨?_, ?_, ?_, ?_, ?_, ?_⟩ <;> decide

/-- C4 (amended): of the §7 invariant violations, only the CW-triangle check
(`appendTriangle`) raises the catchable fatal signal, which the public API
surfaces as its error return; the neighbor-list overflow, the
horizontal-split guard, and a horizontal segment reaching `SolveForX` panic
with plain string payloads, which the public trampoline re-panics — they
escape as uncaught panics. -/
theorem C4_fatal_vs_string_panics (s : St) (nodeId trapId : Nat) (ip : Option Nat)
    (p : Point) :
    (∀ triangles tri, IsCW tri = true →
      appendTriangle triangles tri = .error (.fatal "triangle is clockwise"))
  ∧ (∀ msg, HandleTriangulatePanicRecover (some (.fatal msg)) = .ok (some msg))
  ∧ (∀ tl t e, TrapezoidNeighborList.Add tl t = .error e →
      e = .str "too many neighbors")
  ∧ (∀ seg y e, Segment.SolveForX seg y = .error e →
      seg.IsHorizontal = true ∧ e = .str "Cannot solve for X on a horizontal segment")
  ∧ (s.node nodeId = .sink trapId ip →
      (match (s.trap trapId).Top with
       | some tp => tp.Below p
       | none => false) = true →
      SplitTrapezoidHorizontally nodeId p s = .error (.str "cannot split on point above top"))
  ∧ (∀ msg, HandleTriangulatePanicRecover (some (.str msg)) = .error (.str msg)) := by
  refine ⟨?_, ?_, ?_, ?_, ?_, ?_⟩
  · intro triangles tri h
    unfold appendTriangle
    rw [h]
    rfl
  · intro msg; rfl
  · intro tl t e h
    unfold TrapezoidNeighborList.Add at h
    split_ifs at h <;> simp_all
  · intro seg y e h
    unfold Segment.SolveForX at h
    split_ifs at h with h1 h2 <;> simp_all [Segment.IsHorizontal]
  · intro hnode htop
    unfold SplitTrapezoidHorizontally
    simp only [bnd, liftP, assertSinkTrapezoid, hnode]
    rw [if_pos htop]
  · intro msg; rfl

/-- Witness for `C4_fatal_vs_string_panics` at concrete inputs. -/
theorem C4_fatal_vs_string_panics_witness :
    appendTriangle [] cwTri = .error (.fatal "triangle is clockwise")
  ∧ HandleTriangulatePanicRecover (some (.fatal "boom")) = .ok (some "boom")
  ∧ (PanicVal.str "too many neighbors" = .str "too many neighbors")
  ∧ (horizSeg.IsHorizontal = true ∧
      PanicVal.str "Cannot solve for X on a horizontal segment" =
        .str "Cannot solve for X on a horizontal segment")
  ∧ SplitTrapezoidHorizontally 0 ⟨75, 5, 5⟩ oneTrapSt =
      .error (.str "cannot split on point above top")
  ∧ HandleTriangulatePanicRecover (some (.str "boom")) = .error (.str "boom") := by
  refine ⟨?_, ?_, ?_, ?_, ?_, ?_⟩
  · exact (C4_fatal_vs_string_panics oneTrapSt 0 0 none ⟨75, 5, 5⟩).1 [] cwTri (by decide)
  · exact (C4_fatal_vs_string_panics oneTrapSt 0 0 none ⟨75, 5, 5⟩).2.1 "boom"
  · exact (C4_fatal_vs_string_panics oneTrapSt 0 0 none ⟨75, 5, 5⟩).2.2.1
      ⟨some 1, some 2, some 3⟩ 4 (.str "too many neighbors") (by decide)
  · exact (C4_fatal_vs_string_panics oneTrapSt 0 0 none ⟨75, 5, 5⟩).2.2.2.1
      horizSeg 0 (.str "Cannot solve for X on a horizontal segment") (by decide)
  · exact (C4_fatal_vs_string_panics oneTrapSt 0 0 none ⟨75, 5, 5⟩).2.2.2.2.1
      (by decide) (by decide)
  · exact (C4_fatal_vs_string_panics oneTrapSt 0 0 none ⟨75, 5, 5⟩).2.2.2.2.2 "boom"

/-- C9 counterexample: a valid input (the simple, strictly CCW `sliverPoly`)
on which Triangulate returns — for every one of the six possible edge
insertion orders, hence in particular for the seed-0 shuffle — a triangle of
positive signed area strictly below EPSILON. -/
theorem C9_counterexample :
    Q.blt 0 sliverPoly.SignedArea = true
  ∧ TriangulatePublic [(sliverPoly, [0, 1, 2])] = .ok ([sliverTri], none)
  ∧ TriangulatePublic [(sliverPoly, [0, 2, 1])] = .ok ([sliverTri], none)
  ∧ TriangulatePublic [(sliverPoly, [1, 0, 2])] = .ok ([sliverTri], none)
  ∧ TriangulatePublic [(sliverPoly, [1, 2, 0])] = .ok ([sliverTri], none)
  ∧ TriangulatePublic [(sliverPoly, [2, 0, 1])] = .ok ([sliverTri], none)
  ∧ TriangulatePublic [(sliverPoly, [2, 1, 0])] = .ok ([sliverTri], none)
  ∧ Q.blt 0 sliverTri.SignedArea = true
  ∧ Q.blt sliverTri.Area Epsilon = true := by
  refine ⟨?_, ?_, ?_, ?_, ?_, ?_, ?_, ?_, ?_⟩ <;> decide

/-- C9 (amended): non-degeneracy is not enforced.  `appendTriangle` rejects
only strictly clockwise triangles (anything with signed area ≥ 0, including
area < EPSILON, is appended), the 3-point fast path emits its triangle
unchecked, and on the valid CCW input `sliverPoly` the full pipeline returns
a triangle of area ≈ 6.25e-7 < EPSILON. -/
theorem C9_no_epsilon_floor (polygon : Polygon) :
    (∀ triangles tri, IsCW tri = false →
      appendTriangle triangles tri = .ok (triangles ++ [tri]))
  ∧ (polygon.Points.length = 3 →
      TriangulateMonotone polygon = .ok [⟨polygon.Points.getD 0 ⟨0, 0, 0⟩,
        polygon.Points.getD 1 ⟨0, 0, 0⟩, polygon.Points.getD 2 ⟨0, 0, 0⟩⟩])
  ∧ TriangulatePublic [(sliverPoly, [0, 1, 2])] = .ok ([sliverTri], none)
  ∧ Q.blt sliverTri.Area Epsilon = true := by
  refine ⟨?_, ?_, by decide, by decide⟩
  · intro triangles tri h
    unfold appendTriangle
    rw [h]
    rfl
  · intro h
    unfold TriangulateMonotone
    rw [if_neg (by omega), if_pos (by simp [h])]

/-- Witness for `C9_no_epsilon_floor`: a zero-area (collinear, not CW)
triangle is appended without error, and the fast path emits `sliverTri`'s
polygon unchanged. -/
theorem C9_no_epsilon_floor_witness :
    appendTriangle [] ⟨⟨80, 0, 0⟩, ⟨81, 1, 1⟩, ⟨82, 2, 2⟩⟩ =
      .ok [⟨⟨80, 0, 0⟩, ⟨81, 1, 1⟩, ⟨82, 2, 2⟩⟩]
  ∧ TriangulateMonotone ⟨[sliverTri.A, sliverTri.B, sliverTri.C]⟩ =
      .ok [⟨sliverTri.A, sliverTri.B, sliverTri.C⟩] := by
  constructor
  · exact (C9_no_epsilon_floor sliverPoly).1 [] _ (by decide)
  · exact (C9_no_epsilon_floor ⟨[sliverTri.A, sliverTri.B, sliverTri.C]⟩).2.1 (by decide)

/-! ### Not-clockwise invariants of the monotone sweep (toward C3) -/

/-- Strict order asymmetry for the fraction comparison. -/
theorem bltAsymm (a b : Q) (h : Q.blt a b = true) : Q.blt b a = false := by
  unfold Q.blt at h ⊢
  exact decide_eq_false (lt_asymm (of_decide_eq_true h))

/-- A strictly CCW triangle is not CW. -/
theorem notCW_of_CCW (t : Triangle) (h : IsCCW t = true) : IsCW t = false := by
  unfold IsCCW at h
  unfold IsCW
  exact bltAsymm 0 t.SignedArea h

/-- `appendTriangle` preserves "no clockwise triangle in the list". -/
theorem appendTriangle_notCW (acc : List Triangle) (tri : Triangle)
    (res : List Triangle) (hok : appendTriangle acc tri = .ok res)
    (hacc : ∀ t ∈ acc, IsCW t = false) : ∀ t ∈ res, IsCW t = false := by
  unfold appendTriangle at hok
  cases hcw : IsCW tri with
  | true => rw [hcw] at hok; simp at hok
  | false =>
    rw [hcw] at hok
    simp only [Bool.false_eq_true, if_false, Except.ok.injEq] at hok
    subst hok
    intro t ht
    rcases List.mem_append.mp ht with h | h
    · exact hacc t h
    · rcases List.mem_singleton.mp h with rfl
      exact hcw

/-- `flushStack` preserves "no clockwise triangle". -/
theorem flushStack_notCW (left : Bool) (p : Point) :
    ∀ (stack : List Point) (acc res : List Triangle),
      flushStack left p stack acc = .ok res →
      (∀ t ∈ acc, IsCW t = false) → ∀ t ∈ res, IsCW t = false := by
  intro stack
  induction stack with
  | nil => intro acc res hok hacc; cases hok; exact hacc
  | cons a rest ih =>
    intro acc res hok hacc
    cases rest with
    | nil => cases hok; exact hacc
    | cons b rest2 =>
      unfold flushStack at hok
      cases happ : appendTriangle acc (if left then Triangle.mk p a b else Triangle.mk a p b) with
      | error e => rw [happ] at hok; cases hok
      | ok acc2 =>
        rw [happ] at hok
        exact ih acc2 res hok (appendTriangle_notCW _ _ _ happ hacc)

/-- `sameChainLoop` preserves "no clockwise triangle": every triangle it
appends passed the strict `IsCCW` test. -/
theorem sameChainLoop_notCW (left : Bool) (p : Point) :
    ∀ (stack : List Point) (v : Point) (acc : List Triangle),
      (∀ t ∈ acc, IsCW t = false) →
      ∀ t ∈ (sameChainLoop left p v stack acc).2.2, IsCW t = false := by
  intro stack
  induction stack with
  | nil => intro v acc hacc; exact hacc
  | cons topOfStack rest ih =>
    intro v acc hacc
    unfold sameChainLoop
    cases hccw : IsCCW (if left then Triangle.mk p topOfStack v else Triangle.mk p v topOfStack) with
    | false => simpa using hacc
    | true =>
      simp only [if_pos rfl]
      refine ih topOfStack _ ?_
      intro t ht
      rcases List.mem_append.mp ht with h | h
      · exact hacc t h
      · rcases List.mem_singleton.mp h with rfl
        exact notCW_of_CCW _ hccw

/-- The main sweep preserves "no clockwise triangle". -/
theorem sweep_notCW (isLeft : Point → Bool) :
    ∀ (rest : List Point) (prev : Point) (stack : List Point)
      (acc : List Triangle) (res : List Point × List Triangle),
      sweep isLeft rest prev stack acc = .ok res →
      (∀ t ∈ acc, IsCW t = false) → ∀ t ∈ res.2, IsCW t = false := by
  intro rest
  induction rest with
  | nil => intro prev stack acc res hok hacc; cases hok; exact hacc
  | cons p rest2 ih =>
    intro prev stack acc res hok hacc
    unfold sweep at hok
    split at hok
    · split at hok
      · exact Except.noConfusion hok
      · rename_i acc2 hfl
        exact ih p _ acc2 res hok (flushStack_notCW _ _ _ _ _ hfl hacc)
    · split at hok
      · exact Except.noConfusion hok
      · rename_i v stackRest
        exact ih p _ _ res hok (sameChainLoop_notCW _ _ _ _ _ hacc)

/-- The final emission loop preserves "no clockwise triangle". -/
theorem finalLoop_notCW (isLeft : Point → Bool) (bottomPoint : Point) :
    ∀ (stack : List Point) (l : Point) (acc res : List Triangle),
      finalLoop isLeft bottomPoint l stack acc = .ok res →
      (∀ t ∈ acc, IsCW t = false) → ∀ t ∈ res, IsCW t = false := by
  intro stack
  induction stack with
  | nil => intro l acc res hok hacc; cases hok; exact hacc
  | cons p rest ih =>
    intro l acc res hok hacc
    unfold finalLoop at hok
    cases happ : appendTriangle acc (if isLeft l then Triangle.mk bottomPoint p l
        else Triangle.mk bottomPoint l p) with
    | error e => rw [happ] at hok; cases hok
    | ok acc2 =>
      rw [happ] at hok
      exact ih p acc2 res hok (appendTriangle_notCW _ _ _ happ hacc)

/-- C3: `TriangulateMonotone`'s 3-point fast path returns the single triangle
`(P0, P1, P2)` unchanged; `appendTriangle` asserts non-clockwise, aborting
with the fatal signal on any CW triangle; and consequently, on the general
path (4 or more points), every triangle of a normally returned result has
signed area ≥ 0 — no clockwise triangle is ever returned. -/
theorem C3_monotone_fast_path_and_ccw (polygon : Polygon) :
    (polygon.Points.length = 3 →
      TriangulateMonotone polygon = .ok [⟨polygon.Points.getD 0 ⟨0, 0, 0⟩,
        polygon.Points.getD 1 ⟨0, 0, 0⟩, polygon.Points.getD 2 ⟨0, 0, 0⟩⟩])
  ∧ (∀ triangles tri, IsCW tri = true →
      appendTriangle triangles tri = .error (fatalf "triangle is clockwise"))
  ∧ (∀ triangles, 4 ≤ polygon.Points.length →
      TriangulateMonotone polygon = .ok triangles →
      ∀ t ∈ triangles, IsCW t = false) := by
  refine ⟨?_, ?_, ?_⟩
  · intro h
    unfold TriangulateMonotone
    rw [if_neg (by omega), if_pos (by simp [h])]
  · intro triangles tri h
    unfold appendTriangle
    rw [h]
    rfl
  · intro triangles h4 hok t ht
    unfold TriangulateMonotone at hok
    rw [if_neg (by omega), if_neg (by simp; omega)] at hok
    simp only [] at hok
    split at hok
    · exact Except.noConfusion hok
    · split at hok
      · split at hok
        · exact Except.noConfusion hok
        · rename_i merged s1 sRest res hsw
          split at hok
          · cases hok
            exact sweep_notCW _ _ _ _ _ _ hsw (by intro u hu; cases hu) t ht
          · exact finalLoop_notCW _ _ _ _ _ _ hok
              (sweep_notCW _ _ _ _ _ _ hsw (by intro u hu; cases hu)) t ht
      · exact Except.noConfusion hok

/-- Witness for `C3_monotone_fast_path_and_ccw`: the fast path on a concrete
3-point polygon, the fatal abort on a concrete CW triangle, and a
non-clockwise output triangle of the general path on the concrete monotone
pentagon `pentPoly`. -/
theorem C3_monotone_fast_path_and_ccw_witness :
    TriangulateMonotone ⟨[⟨80, 0, 0⟩, ⟨81, 1, 1⟩, ⟨82, 0, 2⟩]⟩ =
      .ok [⟨⟨80, 0, 0⟩, ⟨81, 1, 1⟩, ⟨82, 0, 2⟩⟩]
  ∧ appendTriangle [] cwTri = .error (fatalf "triangle is clockwise")
  ∧ IsCW ⟨⟨94, 0, 3⟩, ⟨92, 3, 2⟩, ⟨93, 2, 4⟩⟩ = false := by
  refine ⟨?_, ?_, ?_⟩
  · exact (C3_monotone_fast_path_and_ccw ⟨[⟨80, 0, 0⟩, ⟨81, 1, 1⟩, ⟨82, 0, 2⟩]⟩).1
      (by decide)
  · exact (C3_monotone_fast_path_and_ccw pentPoly).2.1 [] cwTri (by decide)
  · exact (C3_monotone_fast_path_and_ccw pentPoly).2.2
      [⟨⟨94, 0, 3⟩, ⟨92, 3, 2⟩, ⟨93, 2, 4⟩⟩, ⟨⟨91, 2, 0⟩, ⟨92, 3, 2⟩, ⟨94, 0, 3⟩⟩,
       ⟨⟨90, 0, 0⟩, ⟨91, 2, 0⟩, ⟨94, 0, 3⟩⟩]
      (by decide) (by decide) ⟨⟨94, 0, 3⟩, ⟨92, 3, 2⟩, ⟨93, 2, 4⟩⟩ (by decide)

/-! ## C7: the horizontal-split guard -/

theorem listSet_getD_ne {α : Type} (l : List α) (i j : Nat) (a d : α) (h : i ≠ j) :
    (listSet l i a).getD j d = l.getD j d := by
  induction l generalizing i j with
  | nil => rfl
  | cons x rest ih =>
    cases i with
    | zero =>
      cases j with
      | zero => exact absurd rfl h
      | succ j => rfl
    | succ i =>
      cases j with
      | zero => rfl
      | succ j => exact ih i j (fun hc => h (by rw [hc]))

theorem listSet_getD_self {α : Type} (l : List α) (i : Nat) (a d : α) :
    (listSet l i a).getD i d = if i < l.length then a else d := by
  induction l generalizing i with
  | nil => simp [listSet]
  | cons x rest ih =>
    cases i with
    | zero => simp [listSet]
    | succ i => simpa [listSet, Nat.succ_lt_succ_iff] using ih i

/-- `ReplaceOrAdd` succeeds — and leaves the replacement in the list —
whenever the original is present, the replacement is already present, or a
slot is free; the "too many neighbors" panic needs three full slots, none of
them the original or the replacement. -/
theorem ReplaceOrAdd_ok (tl : TrapezoidNeighborList) (orig repl : Nat)
    (h : some orig ∈ tl.slots ∨ some repl ∈ tl.slots ∨ none ∈ tl.slots) :
    ∃ nl, tl.ReplaceOrAdd orig repl = .ok nl ∧ some repl ∈ nl.slots := by
  rcases tl with ⟨n0, n1, n2⟩
  simp only [TrapezoidNeighborList.slots, List.mem_cons, List.not_mem_nil,
    or_false] at h
  simp only [TrapezoidNeighborList.ReplaceOrAdd, TrapezoidNeighborList.Add]
  split_ifs with h1 h2 h3 h4 h5 h6 h7 h8 h9 <;>
    first
      | (refine ⟨_, rfl, ?_⟩; simp_all [TrapezoidNeighborList.slots])
      | (exfalso
         rcases h with (h | h | h) | (h | h | h) | h | h | h <;> subst h <;> simp_all)

/-- Setting a trapezoid's `TrapezoidsBelow` list changes no trapezoid's
`TrapezoidsAbove` list. -/
theorem setTrapBelow_above (s : St) (n : Nat) (nl : TrapezoidNeighborList) (j : Nat) :
    ((s.setTrap n { s.trap n with TrapezoidsBelow := nl }).trap j).TrapezoidsAbove
      = (s.trap j).TrapezoidsAbove := by
  unfold St.setTrap St.trap
  by_cases hj : n = j
  · subst hj
    rw [listSet_getD_self]
    split
    · rfl
    · rw [List.getD_eq_default _ _ (Nat.le_of_not_lt (by assumption))]
  · rw [listSet_getD_ne _ _ _ _ _ hj]

/-- Setting a trapezoid's `TrapezoidsAbove` list changes no trapezoid's
`TrapezoidsBelow` list. -/
theorem setTrapAbove_below (s : St) (n : Nat) (nl : TrapezoidNeighborList) (j : Nat) :
    ((s.setTrap n { s.trap n with TrapezoidsAbove := nl }).trap j).TrapezoidsBelow
      = (s.trap j).TrapezoidsBelow := by
  unfold St.setTrap St.trap
  by_cases hj : n = j
  · subst hj
    rw [listSet_getD_self]
    split
    · rfl
    · rw [List.getD_eq_default _ _ (Nat.le_of_not_lt (by assumption))]
  · rw [listSet_getD_ne _ _ _ _ _ hj]

/-- The back-link loop over the above neighbors cannot panic as long as every
neighbor's Below list holds the original, already holds the replacement, or
has a free slot; and it touches no trapezoid's Above list. -/
theorem backlinkAbove_ok (origId newId : Nat) (slots : List (Option Nat)) :
    ∀ (s : St),
      (∀ i, some i ∈ slots →
        some origId ∈ (s.trap i).TrapezoidsBelow.slots ∨
        some newId ∈ (s.trap i).TrapezoidsBelow.slots ∨
        none ∈ (s.trap i).TrapezoidsBelow.slots) →
      ∃ s', backlinkAboveNeighbors origId newId slots s = .ok ((), s') ∧
        ∀ j, (s'.trap j).TrapezoidsAbove = (s.trap j).TrapezoidsAbove := by
  induction slots with
  | nil => exact fun s _ => ⟨s, rfl, fun j => rfl⟩
  | cons head rest ih =>
    intro s h
    match head with
    | none =>
      obtain ⟨s', hrun, hpre⟩ := ih s (fun i hi => h i (List.mem_cons_of_mem _ hi))
      exact ⟨s', hrun, hpre⟩
    | some n =>
      obtain ⟨nl, hra, hmem⟩ := ReplaceOrAdd_ok (s.trap n).TrapezoidsBelow origId newId
        (h n (List.mem_cons_self _ _))
      have hnext : ∀ i, some i ∈ rest →
          some origId ∈ (((s.setTrap n { s.trap n with TrapezoidsBelow := nl }).trap i)).TrapezoidsBelow.slots ∨
          some newId ∈ (((s.setTrap n { s.trap n with TrapezoidsBelow := nl }).trap i)).TrapezoidsBelow.slots ∨
          none ∈ (((s.setTrap n { s.trap n with TrapezoidsBelow := nl }).trap i)).TrapezoidsBelow.slots := by
        intro i hi
        by_cases hin : n = i
        · subst hin
          unfold St.setTrap St.trap
          rw [listSet_getD_self]
          split
          · exact Or.inr (Or.inl hmem)
          · exact Or.inr (Or.inr (by simp [dummyTrap, TrapezoidNeighborList.empty,
              TrapezoidNeighborList.slots]))
        · unfold St.setTrap St.trap
          rw [listSet_getD_ne _ _ _ _ _ hin]
          exact h i (List.mem_cons_of_mem _ hi)
      obtain ⟨s', hrun, hpre⟩ := ih (s.setTrap n { s.trap n with TrapezoidsBelow := nl }) hnext
      refine ⟨s', ?_, ?_⟩
      · unfold backlinkAboveNeighbors trapBelowReplaceOrAdd
        rw [hra]
        exact hrun
      · intro j
        rw [hpre j, setTrapBelow_above]

/-- The mirror of `backlinkAbove_ok` for the below neighbors. -/
theorem backlinkBelow_ok (origId newId : Nat) (slots : List (Option Nat)) :
    ∀ (s : St),
      (∀ i, some i ∈ slots →
        some origId ∈ (s.trap i).TrapezoidsAbove.slots ∨
        some newId ∈ (s.trap i).TrapezoidsAbove.slots ∨
        none ∈ (s.trap i).TrapezoidsAbove.slots) →
      ∃ s', backlinkBelowNeighbors origId newId slots s = .ok ((), s') := by
  induction slots with
  | nil => exact fun s _ => ⟨s, rfl⟩
  | cons head rest ih =>
    intro s h
    match head with
    | none => exact ih s (fun i hi => h i (List.mem_cons_of_mem _ hi))
    | some n =>
      obtain ⟨nl, hra, hmem⟩ := ReplaceOrAdd_ok (s.trap n).TrapezoidsAbove origId newId
        (h n (List.mem_cons_self _ _))
      have hnext : ∀ i, some i ∈ rest →
          some origId ∈ (((s.setTrap n { s.trap n with TrapezoidsAbove := nl }).trap i)).TrapezoidsAbove.slots ∨
          some newId ∈ (((s.setTrap n { s.trap n with TrapezoidsAbove := nl }).trap i)).TrapezoidsAbove.slots ∨
          none ∈ (((s.setTrap n { s.trap n with TrapezoidsAbove := nl }).trap i)).TrapezoidsAbove.slots := by
        intro i hi
        by_cases hin : n = i
        · subst hin
          unfold St.setTrap St.trap
          rw [listSet_getD_self]
          split
          · exact Or.inr (Or.inl hmem)
          · exact Or.inr (Or.inr (by simp [dummyTrap, TrapezoidNeighborList.empty,
              TrapezoidNeighborList.slots]))
        · unfold St.setTrap St.trap
          rw [listSet_getD_ne _ _ _ _ _ hin]
          exact h i (List.mem_cons_of_mem _ hi)
      obtain ⟨s', hrun⟩ := ih (s.setTrap n { s.trap n with TrapezoidsAbove := nl }) hnext
      refine ⟨s', ?_⟩
      unfold backlinkBelowNeighbors trapAboveReplaceOrAdd
      rw [hra]
      exact hrun

/-- The tail of the horizontal split past the guard: both back-link loops
succeed and the sink is replaced by a Y-node. -/
theorem splitTail_ok (origId topId bottomId nodeId topSink bottomSink : Nat)
    (point : Point) (aslots bslots : List (Option Nat)) (s : St)
    (hA : ∀ i, some i ∈ aslots →
      some origId ∈ (s.trap i).TrapezoidsBelow.slots ∨
      some topId ∈ (s.trap i).TrapezoidsBelow.slots ∨
      none ∈ (s.trap i).TrapezoidsBelow.slots)
    (hB : ∀ i, some i ∈ bslots →
      some origId ∈ (s.trap i).TrapezoidsAbove.slots ∨
      some bottomId ∈ (s.trap i).TrapezoidsAbove.slots ∨
      none ∈ (s.trap i).TrapezoidsAbove.slots) :
    stepOk (bnd (backlinkAboveNeighbors origId topId aslots s) fun _ s =>
            bnd (backlinkBelowNeighbors origId bottomId bslots s) fun _ s =>
            .ok ((), s.setNode nodeId (.ynode point topSink bottomSink))) = true := by
  obtain ⟨sA, hrunA, hpres⟩ := backlinkAbove_ok origId topId aslots s hA
  rw [hrunA]
  obtain ⟨sB, hrunB⟩ := backlinkBelow_ok origId bottomId bslots sA
    (fun i hi => by rw [hpres i]; exact hB i hi)
  simp only [bnd]
  rw [hrunB]
  rfl

theorem backLinked_above (s : St) (trapId : Nat) (hb : backLinked s trapId = true) :
    ∀ i, some i ∈ (s.trap trapId).TrapezoidsAbove.slots →
      i < s.traps.length ∧ some trapId ∈ (s.trap i).TrapezoidsBelow.slots := by
  intro i hi
  unfold backLinked at hb
  rw [Bool.and_eq_true] at hb
  have h1 := List.all_eq_true.mp hb.1 (some i) hi
  simp only [Bool.and_eq_true, decide_eq_true_eq] at h1
  exact ⟨h1.1, by simpa using h1.2⟩

theorem backLinked_below (s : St) (trapId : Nat) (hb : backLinked s trapId = true) :
    ∀ i, some i ∈ (s.trap trapId).TrapezoidsBelow.slots →
      i < s.traps.length ∧ some trapId ∈ (s.trap i).TrapezoidsAbove.slots := by
  intro i hi
  unfold backLinked at hb
  rw [Bool.and_eq_true] at hb
  have h1 := List.all_eq_true.mp hb.2 (some i) hi
  simp only [Bool.and_eq_true, decide_eq_true_eq] at h1
  exact ⟨h1.1, by simpa using h1.2⟩


/-- Reading a pre-existing trapezoid is unaffected by the two allocations and
the two in-place updates the horizontal split performs before its back-link
loops. -/
theorem trapAfterAllocs (tr : List Trapezoid) (nd : List QueryNodeInner) (k : Nat)
    (A B R1 R2 : Trapezoid) (i : Nat) (h : i < tr.length) :
    (((St.mk (tr ++ [A] ++ [B]) nd k).setTrap tr.length R1).setTrap
        (tr ++ [A]).length R2).trap i = tr.getD i dummyTrap := by
  show List.getD (listSet (listSet (tr ++ [A] ++ [B]) tr.length R1)
      (tr ++ [A]).length R2) i dummyTrap = tr.getD i dummyTrap
  rw [listSet_getD_ne _ _ _ _ _ (by simp; omega)]
  rw [listSet_getD_ne _ _ _ _ _ (by omega)]
  rw [List.getD_append _ _ _ _ (by simp; omega), List.getD_append _ _ _ _ h]

/-- Past its guard, the horizontal split completes without panicking, given
consistent neighbor back-links. -/
theorem splitHoriz_pass (s : St) (nodeId trapId : Nat) (ip : Option Nat) (point : Point)
    (hs : s.node nodeId = .sink trapId ip)
    (hb : backLinked s trapId = true)
    (hTop : (match (s.trap trapId).Top with
             | some p => p.Below point
             | none => false) = false)
    (hBot : (match (s.trap trapId).Bottom with
             | some p => p.Above point
             | none => false) = false) :
    stepOk (SplitTrapezoidHorizontally nodeId point s) = true := by
  have hassert : liftP (assertSinkTrapezoid nodeId s) s = .ok (trapId, s) := by
    unfold assertSinkTrapezoid liftP
    rw [hs]
  unfold SplitTrapezoidHorizontally
  rw [hassert]
  simp only [bnd]
  rw [hTop, hBot]
  simp only [Bool.false_eq_true, if_false]
  simp only [St.allocTrap, St.allocNode]
  apply splitTail_ok
  · intro i hi
    obtain ⟨hlt, hmem⟩ := backLinked_above s trapId hb i hi
    left
    rw [trapAfterAllocs _ _ _ _ _ _ _ _ hlt]
    exact hmem
  · intro i hi
    obtain ⟨hlt, hmem⟩ := backLinked_below s trapId hb i hi
    left
    rw [trapAfterAllocs _ _ _ _ _ _ _ _ hlt]
    exact hmem

/-- C7 counterexample: the claim says the split panics whenever the point
coincides lexicographically with the Top.  It does not: on a trapezoid with
Top `(0,1)` and Bottom `(0,0)`, splitting at a fresh point with the Top's
exact coordinates passes the guard (the point is not strictly Below the Top,
and the guard only rejects points strictly above it) and completes. -/
theorem C7_counterexample :
    (oneTrapSt.trap 0).Top = some ⟨70, 0, 1⟩
  ∧ topCoincidentPt.Below ⟨70, 0, 1⟩ = false
  ∧ stepOk (SplitTrapezoidHorizontally 0 topCoincidentPt oneTrapSt) = true := by
  decide

/-- C7 (amended): on a sink node with consistent neighbor back-links,
`SplitTrapezoidHorizontally` panics (with the plain-string payloads "cannot
split on point above top" / "cannot split on point below bottom") exactly
when the point is lexicographically strictly above the Top or lexicographically
at-or-below the Bottom (a nil side being unbounded): the no-panic region is
`Bottom ≺ p ≼ Top`, so a point coinciding with the Top passes while a point
coinciding with the Bottom panics. -/
theorem C7_horizontal_split_guard (s : St) (nodeId trapId : Nat) (ip : Option Nat)
    (point : Point)
    (hs : s.node nodeId = .sink trapId ip)
    (hb : backLinked s trapId = true) :
    stepOk (SplitTrapezoidHorizontally nodeId point s) =
      ((match (s.trap trapId).Top with
        | some top => !(top.Below point)
        | none => true) &&
       (match (s.trap trapId).Bottom with
        | some bot => bot.Below point
        | none => true))
  ∧ ∀ e, SplitTrapezoidHorizontally nodeId point s = .error e →
      e = .str "cannot split on point above top" ∨
      e = .str "cannot split on point below bottom" := by
  have hassert : liftP (assertSinkTrapezoid nodeId s) s = .ok (trapId, s) := by
    unfold assertSinkTrapezoid liftP
    rw [hs]
  by_cases h1 : (match (s.trap trapId).Top with
                 | some p => p.Below point
                 | none => false) = true
  · have herr : SplitTrapezoidHorizontally nodeId point s =
        .error (.str "cannot split on point above top") := by
      unfold SplitTrapezoidHorizontally
      rw [hassert]
      simp only [bnd]
      rw [h1]
      simp
    rw [herr]
    refine ⟨?_, ?_⟩
    · cases hT : (s.trap trapId).Top with
      | none => rw [hT] at h1; cases h1
      | some top =>
        rw [hT] at h1
        simp only [] at h1
        simp [stepOk, h1]
    · intro e he
      injection he with h
      exact Or.inl h.symm
  · have h1f := Bool.eq_false_iff.mpr h1
    by_cases h2 : (match (s.trap trapId).Bottom with
                   | some p => p.Above point
                   | none => false) = true
    · have herr : SplitTrapezoidHorizontally nodeId point s =
          .error (.str "cannot split on point below bottom") := by
        unfold SplitTrapezoidHorizontally
        rw [hassert]
        simp only [bnd]
        rw [h1f]
        simp only [Bool.false_eq_true, if_false]
        rw [h2]
        simp
      rw [herr]
      refine ⟨?_, ?_⟩
      · cases hB : (s.trap trapId).Bottom with
        | none => rw [hB] at h2; cases h2
        | some bot =>
          rw [hB] at h2
          simp only [Point.Above] at h2
          rw [Bool.not_eq_true'] at h2
          simp [stepOk, h2]
      · intro e he
        injection he with h
        exact Or.inr h.symm
    · have h2f := Bool.eq_false_iff.mpr h2
      have hok := splitHoriz_pass s nodeId trapId ip point hs hb h1f h2f
      refine ⟨?_, ?_⟩
      · rw [hok]
        symm
        rw [Bool.and_eq_true]
        constructor
        · cases hT : (s.trap trapId).Top with
          | none => rfl
          | some top =>
            rw [hT] at h1f
            simp only [] at h1f
            simp [h1f]
        · cases hB : (s.trap trapId).Bottom with
          | none => rfl
          | some bot =>
            rw [hB] at h2f
            simp only [Point.Above] at h2f
            rw [Bool.not_eq_false'] at h2f
            simpa using h2f
      · intro e he
        rw [he] at hok
        simp [stepOk] at hok

/-- Witness for `C7_horizontal_split_guard`: the one-trapezoid store has a
sink at node 0 with consistent back-links, and the guard characterization
instantiated at a point strictly between Bottom and Top evaluates to a
panic-free run. -/
theorem C7_horizontal_split_guard_witness :
    oneTrapSt.node 0 = .sink 0 none ∧ backLinked oneTrapSt 0 = true
  ∧ stepOk (SplitTrapezoidHorizontally 0 interiorPt oneTrapSt) = true := by
  refine ⟨by decide, by decide, ?_⟩
  rw [(C7_horizontal_split_guard oneTrapSt 0 0 none interiorPt (by decide) (by decide)).1]
  decide

end Triangulate
